import Mathlib

/-
Verification of the multi-signal classification engine of the
adaptive-claude-agents repository.

The development shallowly embeds the Python sources:
  * skills/adaptive-review/detect_phase.py        (namespace AR)
  * skills/project-analyzer/detect_phase.py       (namespace PA)
  * skills/project-analyzer/detect_stack.py       (namespace Stack)
  * skills/project-analyzer/detection_cache.py    (namespace Cache)
  * skills/project-analyzer/detect_monorepo.py    (namespace Mono)

Modelling conventions, applied uniformly:
  * Confidence scores, weights and timestamps are rationals (Python floats
    are used only for bounded additive scoring with small decimal constants,
    which rationals represent exactly).
  * Filesystem evidence is abstracted into per-module project structures:
    each field records the outcome of one filesystem probe the source makes
    (file existence, parse outcome, pattern counts).  A parse outcome
    `Option (Option α)` reads: `none` = file absent, `some none` = file
    present but unparseable/undecodable, `some (some a)` = parsed payload.
  * SHA-256-truncated hashes in the cache are modelled injectively by the
    hashed data itself (hash collisions are outside the scope of the spec).
  * Fields of result dataclasses that no verified claim mentions
    (human-readable indicator/evidence strings, the `tools` mapping,
    `recommended_subagents`, `project_structure`) are not modelled; all
    label, confidence, weight, version, language and override data is.
  * Raised Python exceptions that escape a public entry point are modelled
    with `Except String`; the error string names the exception class.
-/

/-- Development phase labels shared by both phase detectors
(`prototype`, `mvp`, `production` in the sources). -/
inductive Phase
  | prototype
  | mvp
  | production
deriving DecidableEq, Repr

/-- Python `max(scores, key=scores.get)` over a dict whose insertion order is
prototype, mvp, production: the first key attaining the maximum wins. -/
def winner (f : Phase → ℚ) : Phase :=
  if f .mvp ≤ f .prototype ∧ f .production ≤ f .prototype then .prototype
  else if f .production ≤ f .mvp then .mvp
  else .production

/-- Association-list lookup (Python dict access by key). -/
def alookup {κ α : Type} [DecidableEq κ] : List (κ × α) → κ → Option α
  | [], _ => none
  | kv :: rest, k => if kv.1 = k then some kv.2 else alookup rest k

namespace AR

/-- Signal weights of `DevelopmentPhaseDetector.WEIGHTS`. -/
def WEIGHTS (name : String) : ℚ :=
  if name = "user_config" then 1
  else if name = "version_number" then 3/10
  else if name = "git_history" then 1/5
  else if name = "test_coverage" then 3/20
  else if name = "ci_cd" then 3/20
  else if name = "documentation" then 1/10
  else if name = "code_structure" then 1/10
  else 0

/-- Result of a single detection signal (`SignalResult` dataclass; the
`indicators` string list is not modelled). -/
structure SignalResult where
  signal_name : String
  detected_phase : Phase
  confidence : ℚ
  weight : ℚ
deriving DecidableEq, Repr

/-- Per-phase weighted contribution of one signal
(`SignalResult.weighted_score`, read off at one phase). -/
def weighted_score (s : SignalResult) (ph : Phase) : ℚ :=
  if ph = s.detected_phase then s.confidence * s.weight else 0

/-- Final phase detection result (`PhaseResult` dataclass; the flattened
`indicators` list is not modelled). -/
structure PhaseResult where
  phase : Phase
  confidence : ℚ
  signals : List SignalResult
  override_source : Option String
deriving DecidableEq, Repr

/-- Probe outcome for `.claude/phase.yml`: absent, unreadable/unparseable,
or parsed with the optional `phase` field (`config.get('phase', '')`). -/
inductive PhaseFile
  | absent
  | unreadable
  | parsed (phaseField : Option String)
deriving DecidableEq, Repr

/-- Python `str.lower()` (character-wise lowercasing, written over the
character list so that it evaluates by reduction). -/
def pyLower (s : String) : String :=
  String.mk (s.toList.map Char.toLower)

/-- Membership test of a lowercased phase string in the fixed label enum
(`phase not in ['prototype', 'mvp', 'production']`). -/
def phaseOfString (s : String) : Option Phase :=
  if s = "prototype" then some .prototype
  else if s = "mvp" then some .mvp
  else if s = "production" then some .production
  else none

/-- Outcome of the semver regex `(\d+)\.(\d+)\.(\d+)` applied by
`_analyze_version` to a version string. -/
inductive Version
  | semver (major minor patch : ℕ)
  | malformed
deriving DecidableEq, Repr

/-- Outcome of the three git subprocess probes of `_detect_git_history`:
no `.git` directory, subprocess failure, or the three collected counts. -/
inductive GitInfo
  | noRepo
  | failed
  | ok (commitCount recentCommits tagCount : ℕ)
deriving DecidableEq, Repr

/-- Filesystem evidence consumed by `DevelopmentPhaseDetector`.
`packageJson`/`pyproject` carry the version-string probe of
`_detect_version_number` (see the module-level conventions). -/
structure Project where
  phaseFile : PhaseFile
  packageJson : Option (Option Version)
  pyproject : Option (Option Version)
  git : GitInfo
  testFileCount : ℕ
  hasTestConfig : Bool
  hasCI : Bool
  hasReadme : Bool
  docCount : ℕ
  structureCount : ℕ
deriving DecidableEq, Repr

/-- Embeds `_detect_user_config`: a parsed `.claude/phase.yml` whose
lowercased `phase` value is in the enum yields a full-confidence,
full-weight signal; every other outcome yields no signal. -/
def detect_user_config (p : Project) : Option SignalResult :=
  match p.phaseFile with
  | .absent => none
  | .unreadable => none
  | .parsed fld =>
    match phaseOfString (pyLower (fld.getD "")) with
    | none => none
    | some ph => some ⟨"user_config", ph, 1, WEIGHTS "user_config"⟩

/-- Embeds `_analyze_version`: the phase/confidence table keyed on the
major/minor/patch components (or the malformed-version fallback). -/
def analyze_version (v : Version) : SignalResult :=
  match v with
  | .malformed => ⟨"version_number", .prototype, 1/2, WEIGHTS "version_number"⟩
  | .semver major minor patch =>
    if major = 0 ∧ minor = 0 then
      ⟨"version_number", .prototype, 9/10, WEIGHTS "version_number"⟩
    else if major = 0 then
      ⟨"version_number", (if 1 ≤ minor then .mvp else .prototype), 8/10,
        WEIGHTS "version_number"⟩
    else if major = 1 ∧ minor = 0 ∧ patch = 0 then
      ⟨"version_number", .production, 9/10, WEIGHTS "version_number"⟩
    else if 1 ≤ major then
      ⟨"version_number", .production, 19/20, WEIGHTS "version_number"⟩
    else
      ⟨"version_number", .prototype, 1/2, WEIGHTS "version_number"⟩

/-- Embeds `_detect_version_number`: package.json is consulted first; a
parse failure there (or absence) falls through to pyproject.toml. -/
def detect_version_number (p : Project) : Option SignalResult :=
  match p.packageJson with
  | some (some v) => some (analyze_version v)
  | _ =>
    match p.pyproject with
    | some (some v) => some (analyze_version v)
    | _ => none

/-- Embeds `_detect_git_history`: no repository is itself a prototype
signal; a failed subprocess makes the signal abstain; otherwise the
commit-count table applies, upgraded by five or more release tags. -/
def detect_git_history (p : Project) : Option SignalResult :=
  match p.git with
  | .noRepo => some ⟨"git_history", .prototype, 3/10, WEIGHTS "git_history"⟩
  | .failed => none
  | .ok commitCount _recent tagCount =>
    let ph : Phase :=
      if commitCount < 50 then .prototype
      else if commitCount < 200 then .mvp
      else .production
    let adjusted : Phase × ℚ :=
      if 0 < tagCount then
        (if 5 ≤ tagCount then (.production, 17/20) else (ph, 7/10))
      else (ph, 7/10)
    some ⟨"git_history", adjusted.1, adjusted.2, WEIGHTS "git_history"⟩

/-- Embeds `_detect_test_coverage`: phase from the test-file count, a
prototype upgraded to mvp and +0.1 confidence when a test configuration
file exists, with the final `min(confidence, 1.0)` clamp. -/
def detect_test_coverage (p : Project) : SignalResult :=
  let base : Phase × ℚ :=
    if p.testFileCount = 0 then (.prototype, 7/10)
    else if p.testFileCount < 10 then (.mvp, 3/5)
    else (.production, 3/4)
  let adjusted : Phase × ℚ :=
    if p.hasTestConfig then
      ((if base.1 = .prototype then .mvp else base.1), base.2 + 1/10)
    else base
  ⟨"test_coverage", adjusted.1, min adjusted.2 1, WEIGHTS "test_coverage"⟩

/-- Embeds `_detect_ci_cd`. -/
def detect_ci_cd (p : Project) : SignalResult :=
  if p.hasCI then ⟨"ci_cd", .production, 4/5, WEIGHTS "ci_cd"⟩
  else ⟨"ci_cd", .prototype, 3/5, WEIGHTS "ci_cd"⟩

/-- Embeds `_detect_documentation`. -/
def detect_documentation (p : Project) : SignalResult :=
  if ¬ p.hasReadme then ⟨"documentation", .prototype, 7/10, WEIGHTS "documentation"⟩
  else if p.docCount = 0 then ⟨"documentation", .mvp, 3/5, WEIGHTS "documentation"⟩
  else if p.docCount < 3 then ⟨"documentation", .mvp, 7/10, WEIGHTS "documentation"⟩
  else ⟨"documentation", .production, 4/5, WEIGHTS "documentation"⟩

/-- Embeds `_detect_code_structure`. -/
def detect_code_structure (p : Project) : SignalResult :=
  if p.structureCount < 2 then
    ⟨"code_structure", .prototype, 3/5, WEIGHTS "code_structure"⟩
  else if p.structureCount < 5 then
    ⟨"code_structure", .mvp, 7/10, WEIGHTS "code_structure"⟩
  else
    ⟨"code_structure", .production, 3/4, WEIGHTS "code_structure"⟩

/-- The six non-override signals gathered by `detect`, in source order,
with `None` results filtered out. -/
def signalList (p : Project) : List SignalResult :=
  [detect_version_number p, detect_git_history p,
   some (detect_test_coverage p), some (detect_ci_cd p),
   some (detect_documentation p), some (detect_code_structure p)].filterMap id

/-- Accumulated weighted score of one phase over the gathered signals,
with `user_config` signals skipped as in the aggregation loop. -/
def phaseScore (signals : List SignalResult) (ph : Phase) : ℚ :=
  ((signals.filter fun s => s.signal_name ≠ "user_config").map
    fun s => weighted_score s ph).sum

/-- Accumulated `total_weight` of the aggregation loop
(`user_config` signals skipped). -/
def totalWeight (signals : List SignalResult) : ℚ :=
  ((signals.filter fun s => s.signal_name ≠ "user_config").map
    fun s => s.weight).sum

/-- The weighted-aggregation tail of `detect`: the no-signal fallback, the
normalisation by `total_weight` when positive, and the arg-max verdict. -/
def aggregate (signals : List SignalResult) : PhaseResult :=
  if signals = [] then ⟨.prototype, 3/10, [], none⟩
  else
    let score : Phase → ℚ := fun ph =>
      if 0 < totalWeight signals then phaseScore signals ph / totalWeight signals
      else phaseScore signals ph
    let ph := winner score
    ⟨ph, score ph, signals, none⟩

/-- Embeds `DevelopmentPhaseDetector.detect`: the user-config override
short-circuits when its confidence exceeds 0.9; otherwise all signals are
gathered and aggregated. -/
def detect (p : Project) : PhaseResult :=
  match detect_user_config p with
  | some u =>
    if 9/10 < u.confidence then
      ⟨u.detected_phase, u.confidence, [u], some "user"⟩
    else aggregate (u :: signalList p)
  | none => aggregate (signalList p)

/-- Label score as the specification describes it: the sum of
confidence x weight over the signals voting for the label, divided by the
sum of the weights of all signals that fired. -/
def claimedLabelScore (signals : List SignalResult) (ph : Phase) : ℚ :=
  ((signals.filter fun s => s.detected_phase = ph).map
    fun s => s.confidence * s.weight).sum /
  (signals.map fun s => s.weight).sum

end AR

namespace PA

/-- Weight table `PhaseDetector.PROTOTYPE_SIGNALS`. -/
def PROTOTYPE_SIGNALS : List (String × ℚ) :=
  [("todo_comments", 15/100), ("placeholder_data", 10/100),
   ("console_logging", 10/100), ("no_tests", 20/100), ("no_ci", 15/100),
   ("no_env_config", 10/100), ("small_commit_count", 10/100),
   ("single_contributor", 10/100)]

/-- Weight table `PhaseDetector.MVP_SIGNALS`. -/
def MVP_SIGNALS : List (String × ℚ) :=
  [("basic_tests", 15/100), ("env_config", 15/100), ("ci_config", 15/100),
   ("readme", 10/100), ("gitignore", 5/100), ("moderate_commits", 10/100),
   ("multiple_contributors", 10/100), ("basic_error_handling", 10/100),
   ("some_documentation", 10/100)]

/-- Weight table `PhaseDetector.PRODUCTION_SIGNALS`. -/
def PRODUCTION_SIGNALS : List (String × ℚ) :=
  [("comprehensive_tests", 15/100), ("monitoring", 15/100),
   ("logging", 10/100), ("security", 15/100), ("documentation", 10/100),
   ("ci_cd", 10/100), ("many_commits", 10/100), ("team_contributors", 5/100),
   ("code_quality_tools", 5/100), ("production_deps", 5/100)]

/-- Filesystem and git evidence consumed by `PhaseDetector`.  Pattern
counts record the totals computed by `_count_pattern`; the git counts
record the outcomes of `_get_commit_count` and `_get_contributor_count`
(which return 0 resp. 1 outside a repository or on subprocess failure). -/
structure Project where
  todoCount : ℕ
  placeholderCount : ℕ
  consoleCount : ℕ
  errorHandlingCount : ℕ
  testFileCount3 : ℕ
  specJsTsCount : ℕ
  hasGithubWorkflows : Bool
  hasGitlabCI : Bool
  hasCircleCI : Bool
  hasJenkinsfile : Bool
  hasDotEnv : Bool
  hasDotEnvExample : Bool
  hasConfigPy : Bool
  hasConfigJs : Bool
  hasConfigEnvironments : Bool
  hasReadme : Bool
  hasGitignore : Bool
  hasDocsDir : Bool
  docsMdCount : ℕ
  commitCount : ℕ
  contributorCount : ℕ
  monitoringCount : ℕ
  loggingCount : ℕ
  securityCount : ℕ
  prodDepsCount : ℕ
  hasEslintrc : Bool
  hasPrettierrc : Bool
  hasPyprojectToml : Bool
  hasPylintrc : Bool
  hasDeployYml : Bool
  hasDockerfile : Bool
deriving DecidableEq, Repr

/-- Embeds `_get_prototype_signals` (the returned signal dict in source
order).  `testFileCount3` counts the three `*test*.{py,js,ts}` globs and
`specJsTsCount` the two extra `*spec*.{js,ts}` globs the prototype test
check also consults. -/
def get_prototype_signals (p : Project) : List (String × ℚ) :=
  [("todo_comments", min ((p.todoCount : ℚ) / 20) 1),
   ("placeholder_data", min ((p.placeholderCount : ℚ) / 10) 1),
   ("console_logging", min ((p.consoleCount : ℚ) / 30) 1),
   ("no_tests", if p.testFileCount3 + p.specJsTsCount = 0 then 1 else 0),
   ("no_ci", if p.hasGithubWorkflows ∨ p.hasGitlabCI ∨ p.hasCircleCI ∨
      p.hasJenkinsfile then 0 else 1),
   ("no_env_config", if p.hasDotEnv ∨ p.hasDotEnvExample ∨ p.hasConfigPy ∨
      p.hasConfigJs then 0 else 1),
   ("small_commit_count", if p.commitCount < 20 then 1 else 0),
   ("single_contributor", if p.contributorCount = 1 then 1 else 0)]

/-- Embeds `_get_mvp_signals`. -/
def get_mvp_signals (p : Project) : List (String × ℚ) :=
  [("basic_tests", if p.testFileCount3 ≠ 0 then 1 else 0),
   ("env_config", if p.hasDotEnvExample ∨ p.hasConfigEnvironments then 1 else 0),
   ("ci_config", if p.hasGithubWorkflows ∨ p.hasGitlabCI then 1 else 0),
   ("readme", if p.hasReadme then 1 else 0),
   ("gitignore", if p.hasGitignore then 1 else 0),
   ("moderate_commits", if 20 ≤ p.commitCount ∧ p.commitCount ≤ 100 then 1 else 0),
   ("multiple_contributors",
      if 2 ≤ p.contributorCount ∧ p.contributorCount ≤ 5 then 1 else 0),
   ("basic_error_handling", min ((p.errorHandlingCount : ℚ) / 10) 1),
   ("some_documentation", if p.hasDocsDir then 1 else 0)]

/-- Embeds `_get_production_signals`. -/
def get_production_signals (p : Project) : List (String × ℚ) :=
  [("comprehensive_tests", if 20 < p.testFileCount3 then 1 else 0),
   ("monitoring", if 0 < p.monitoringCount then 1 else 0),
   ("logging", min ((p.loggingCount : ℚ) / 5) 1),
   ("security", min ((p.securityCount : ℚ) / 3) 1),
   ("documentation", if p.hasDocsDir then (if 5 < p.docsMdCount then 1 else 1/2)
      else 0),
   ("ci_cd", if 2 ≤ (if p.hasGithubWorkflows then 1 else 0) +
      (if p.hasDeployYml then 1 else 0) +
      (if p.hasDockerfile then (1 : ℕ) else 0) then 1 else 0),
   ("many_commits", if 100 ≤ p.commitCount then 1 else 0),
   ("team_contributors", if 5 ≤ p.contributorCount then 1 else 0),
   ("code_quality_tools", if p.hasEslintrc ∨ p.hasPrettierrc ∨
      p.hasPyprojectToml ∨ p.hasPylintrc then 1 else 0),
   ("production_deps", if 0 < p.prodDepsCount then 1 else 0)]

/-- Weighted-sum body shared by the three `_calculate_*_score` methods:
sum of `signals[name] * weight` over the weight table, clamped at 1.0. -/
def calculateScore (weightTable : List (String × ℚ))
    (signals : List (String × ℚ)) : ℚ :=
  min ((weightTable.map fun nw =>
    match alookup signals nw.1 with
    | some v => v * nw.2
    | none => 0).sum) 1

/-- Embeds `_calculate_prototype_score`. -/
def calculate_prototype_score (p : Project) : ℚ :=
  calculateScore PROTOTYPE_SIGNALS (get_prototype_signals p)

/-- Embeds `_calculate_mvp_score`. -/
def calculate_mvp_score (p : Project) : ℚ :=
  calculateScore MVP_SIGNALS (get_mvp_signals p)

/-- Embeds `_calculate_production_score`. -/
def calculate_production_score (p : Project) : ℚ :=
  calculateScore PRODUCTION_SIGNALS (get_production_signals p)

/-- Per-label score function of `PhaseDetector.detect`. -/
def labelScore (p : Project) : Phase → ℚ
  | .prototype => calculate_prototype_score p
  | .mvp => calculate_mvp_score p
  | .production => calculate_production_score p

/-- Phase detection result (`PhaseResult` dataclass of the
project-analyzer variant). -/
structure PhaseResult where
  phase : Phase
  confidence : ℚ
  rigor : ℕ
  signals : List (String × ℚ)
  description : String
deriving DecidableEq, Repr

/-- Rigor level of the `phase_info` table. -/
def rigorOf : Phase → ℕ
  | .prototype => 3
  | .mvp => 6
  | .production => 10

/-- Description string of the `phase_info` table. -/
def descriptionOf : Phase → String
  | .prototype => "Prototype phase - Focus on \"Does it work?\" with light review"
  | .mvp => "MVP phase - Focus on \"Is it secure?\" with moderate review"
  | .production => "Production phase - Focus on \"Is it perfect?\" with strict review"

/-- Embeds `PhaseDetector.detect`: the three per-label scores, the arg-max
verdict, and the merged signal dict for reporting. -/
def detect (p : Project) : PhaseResult :=
  let ph := winner (labelScore p)
  ⟨ph, labelScore p ph, rigorOf ph,
   get_prototype_signals p ++ get_mvp_signals p ++ get_production_signals p,
   descriptionOf ph⟩

/-- Label score as the claim under scrutiny describes it for this
implementation: the sum of value x weight over the label's signals,
divided by the sum of the weights of all fired signals (here every signal
of all three tables fires). -/
def claimedLabelScorePA (p : Project) (ph : Phase) : ℚ :=
  (match ph with
   | .prototype => (PROTOTYPE_SIGNALS.map fun nw =>
       ((alookup (get_prototype_signals p) nw.1).getD 0) * nw.2).sum
   | .mvp => (MVP_SIGNALS.map fun nw =>
       ((alookup (get_mvp_signals p) nw.1).getD 0) * nw.2).sum
   | .production => (PRODUCTION_SIGNALS.map fun nw =>
       ((alookup (get_production_signals p) nw.1).getD 0) * nw.2).sum) /
  ((PROTOTYPE_SIGNALS.map fun nw => nw.2).sum +
   (MVP_SIGNALS.map fun nw => nw.2).sum +
   (PRODUCTION_SIGNALS.map fun nw => nw.2).sum)

end PA

namespace Stack

/-- Structured detection result (`DetectionResult` dataclass; the
`indicators`, `tools`, `recommended_subagents` and `project_structure`
fields are not modelled). -/
structure DetectionResult where
  framework : String
  version : Option String
  language : String
  confidence : ℚ
deriving DecidableEq, Repr

/-- Parsed package.json payload: the merged
`{**dependencies, **devDependencies}` mapping from name to version. -/
structure PkgData where
  deps : List (String × String)
deriving DecidableEq, Repr

/-- Python `str.lstrip('^~')`. -/
def lstripCaretTilde (s : String) : String :=
  String.mk (s.toList.dropWhile fun c => c == '^' || c == '~')

/-- Python `str.lstrip('^~>=<')` used for the composer php requirement. -/
def lstripVerChars (s : String) : String :=
  String.mk (s.toList.dropWhile fun c =>
    c == '^' || c == '~' || c == '>' || c == '=' || c == '<')

/-- Parsed requirements.txt facts consulted by the FastAPI and Flask
detectors. -/
structure ReqInfo where
  hasFastapi : Bool
  fastapiEqVersion : Option String
  hasUvicorn : Bool
  hasFlask : Bool
deriving DecidableEq, Repr

/-- Go web frameworks recognised in go.mod, in elif order. -/
inductive GoFw
  | gin | echo | fiber | chi | gorilla
deriving DecidableEq, Repr

/-- Framework name assigned per recognised Go web framework. -/
def goFwName : GoFw → String
  | .gin => "go-gin"
  | .echo => "go-echo"
  | .fiber => "go-fiber"
  | .chi => "go-chi"
  | .gorilla => "go-gorilla"

/-- Facts read from a decodable go.mod: the first matching web framework,
the `go (\d+\.\d+)` version match, and whether an ORM marker was found. -/
structure GoModInfo where
  webFramework : Option GoFw
  goVersion : Option String
  hasOrm : Bool
deriving DecidableEq, Repr

/-- Outcome of parsing pubspec.yaml in `_detect_flutter`: the yaml parse
may yield an empty document, a document without flutter markers, or a
flutter project (recording whether the flutter config carries an `sdk`
key); on a yaml error the raw-text fallback looks for a flutter
reference, and may itself fail to decode the file. -/
inductive PubspecOutcome
  | parsedEmpty
  | parsedNoFlutter
  | parsedFlutter (hasSdkKey : Bool)
  | yamlErrorFlutterRef
  | yamlErrorNoRef
  | yamlErrorUnreadable
deriving DecidableEq, Repr

/-- Parsed composer.json facts consulted by the vanilla-PHP detector. -/
structure ComposerInfo where
  hasMajorFramework : Bool
  phpRequire : Option String
  totalDeps : ℕ
deriving DecidableEq, Repr

/-- State of one candidate MVC directory (`src/app`, `app`,
`application`); the source also computes a `has_models` flag that it
never uses. -/
structure MvcDir where
  dirExists : Bool
  hasControllers : Bool
  hasViews : Bool
deriving DecidableEq, Repr

/-- Modern JS framework dependency names that reduce vanilla-PHP
confidence. -/
def modernFrameworks : List String :=
  ["react", "vue", "@vue/cli", "angular", "@angular/core", "next", "nuxt",
   "svelte"]

/-- Filesystem evidence consumed by `TechStackDetector`.  `Option (Option α)`
fields follow the parse-outcome convention of the module header; the
bounded source-file scans are recorded as the number of scanned files in
which some pattern of the detector's pattern list matched. -/
structure SProject where
  packageJson : Option (Option PkgData)
  hasTsconfig : Bool
  hasNextConfig : Bool
  hasAppDir : Bool
  hasPagesDir : Bool
  requirementsTxt : Option (Option ReqInfo)
  pyprojectFastapi : Option (Option Bool)
  hasSetupPy : Bool
  fastapiFileMatches : ℕ
  entryHasFastapi : Bool
  hasManagePy : Bool
  goMod : Option (Option GoModInfo)
  goFileMatches : ℕ
  hasDockerfile : Bool
  pubspec : Option PubspecOutcome
  hasLibDir : Bool
  hasAndroidDir : Bool
  hasIosDir : Bool
  mainDart : Option Bool
  flutterImportCount : ℕ
  composerJson : Option (Option ComposerInfo)
  rootPhpCount : ℕ
  indexPhp : Option (Option Bool)
  mvcDirs : List MvcDir
  htaccessRewrite : Bool
  hasBootstrapMatch : Bool
  hasTsFiles : Bool
  hasPlaywrightConfig : Bool
  hasCodeceptionYml : Bool
  hasPhpunitXml : Bool
  hasCondaEnv : Bool
  catGeneral : Bool
  catDeepLearning : Bool
  catCV : Bool
  catNLP : Bool
  notebookCount : ℕ
  mlFileMatches : ℕ
  hasMlDirs : Bool
  hasXcodeproj : Bool
  hasXcworkspace : Bool
  swiftFileCount : ℕ
  hasPodfile : Bool
  hasPackageSwift : Bool
  hasInfoPlist : Bool
deriving DecidableEq, Repr

/-- Embeds `_detect_nextjs`: package.json must exist and parse, the `next`
dependency is mandatory, and config/app/pages evidence adds increments. -/
def detect_nextjs (p : SProject) : Option DetectionResult :=
  match p.packageJson with
  | none => none
  | some none => none
  | some (some pkg) =>
    match alookup pkg.deps "next" with
    | none => none
    | some ver =>
      let c := (1/10 : ℚ) + 4/10 +
        (if p.hasNextConfig then 3/10 else 0) +
        (if p.hasAppDir then 2/10 else if p.hasPagesDir then 2/10 else 0)
      let lang := if p.hasTsconfig then "typescript" else "javascript"
      some ⟨"nextjs", some (lstripCaretTilde ver), lang, min c 1⟩

/-- Embeds `_detect_react`: requires `react` and the absence of `next`,
with a build-tool increment. -/
def detect_react (p : SProject) : Option DetectionResult :=
  match p.packageJson with
  | none => none
  | some none => none
  | some (some pkg) =>
    if (alookup pkg.deps "react").isNone ∨ (alookup pkg.deps "next").isSome then
      none
    else
      let hasVite := (alookup pkg.deps "vite").isSome
      let hasCRA := (alookup pkg.deps "react-scripts").isSome
      let fw := if hasVite then "vite-react"
        else if hasCRA then "create-react-app" else "react"
      let c := (3/5 : ℚ) + (if hasVite then 1/5 else if hasCRA then 1/5 else 0)
      let lang := if p.hasTsconfig then "typescript" else "javascript"
      some ⟨fw, none, lang, min c 1⟩

/-- Embeds `_detect_vue`. -/
def detect_vue (p : SProject) : Option DetectionResult :=
  match p.packageJson with
  | none => none
  | some none => none
  | some (some pkg) =>
    if (alookup pkg.deps "vue").isNone then none
    else
      let c := (7/10 : ℚ) + (if (alookup pkg.deps "vite").isSome then 1/5 else 0)
      some ⟨"vue", none, "javascript", min c 1⟩

/-- Embeds `_detect_fastapi`: requires some Python project file, adds 0.5
per manifest mentioning fastapi, 0.05 for uvicorn, 0.15 per scanned file
with a FastAPI pattern, 0.1 for a FastAPI entry point, and abstains below
the 0.5 floor. -/
def detect_fastapi (p : SProject) : Option DetectionResult :=
  if p.requirementsTxt.isNone ∧ p.pyprojectFastapi.isNone ∧ ¬ p.hasSetupPy then
    none
  else
    let reqPart : ℚ × Option String :=
      match p.requirementsTxt with
      | some (some r) =>
        ((if r.hasFastapi then 1/2 else 0) + (if r.hasUvicorn then 1/20 else 0),
         if r.hasFastapi then r.fastapiEqVersion else none)
      | _ => (0, none)
    let pyprojPart : ℚ :=
      match p.pyprojectFastapi with
      | some (some true) => 1/2
      | _ => 0
    let c := reqPart.1 + pyprojPart + (15/100) * p.fastapiFileMatches +
      (if p.entryHasFastapi then 1/10 else 0)
    if c < 1/2 then none
    else some ⟨"fastapi", reqPart.2, "python", min c 1⟩

/-- Embeds `_detect_django`: manage.py alone yields the constant 0.8
confidence, with no clamp in the source. -/
def detect_django (p : SProject) : Option DetectionResult :=
  if p.hasManagePy then some ⟨"django", none, "python", 4/5⟩ else none

/-- Embeds `_detect_flask`: requirements.txt must exist, decode and
mention flask. -/
def detect_flask (p : SProject) : Option DetectionResult :=
  match p.requirementsTxt with
  | none => none
  | some none => none
  | some (some r) =>
    if r.hasFlask then some ⟨"flask", none, "python", 7/10⟩ else none

/-- Embeds `_detect_go`: go.mod existence gives the 0.7 base, a recognised
web framework 0.15, an ORM marker 0.05, each scanned Go file with a
pattern 0.05, and a Dockerfile 0.05. -/
def detect_go (p : SProject) : Option DetectionResult :=
  match p.goMod with
  | none => none
  | some info =>
    let fwPart : String × ℚ :=
      match info with
      | some i =>
        match i.webFramework with
        | some fw => (goFwName fw, 3/20)
        | none => ("go", 0)
      | none => ("go", 0)
    let ormPart : ℚ :=
      match info with
      | some i => if i.hasOrm then 1/20 else 0
      | none => 0
    let ver : Option String :=
      match info with
      | some i => i.goVersion
      | none => none
    let c := (7/10 : ℚ) + fwPart.2 + ormPart + (1/20) * p.goFileMatches +
      (if p.hasDockerfile then 1/20 else 0)
    some ⟨fwPart.1, ver, "go", min c 1⟩

/-- Embeds `_detect_flutter`: the pubspec parse stage yields 0.6 and the
optional `"flutter"` version tag, structure markers add increments, and
the 0.6 floor applies before returning. -/
def detect_flutter (p : SProject) : Option DetectionResult :=
  match p.pubspec with
  | none => none
  | some outcome =>
    let stage : Option (ℚ × Option String) :=
      match outcome with
      | .parsedEmpty => none
      | .parsedNoFlutter => none
      | .parsedFlutter hasSdkKey => some (3/5, if hasSdkKey then some "flutter" else none)
      | .yamlErrorFlutterRef => some (3/5, none)
      | .yamlErrorNoRef => none
      | .yamlErrorUnreadable => none
    match stage with
    | none => none
    | some sv =>
      let c := sv.1 + (if p.hasLibDir then 3/20 else 0) +
        (if p.hasAndroidDir ∧ p.hasIosDir then 1/10
         else if p.hasAndroidDir ∨ p.hasIosDir then 1/20 else 0) +
        (match p.mainDart with
         | none => 0
         | some patFound => 1/10 + (if patFound then 1/50 else 0)) +
        (if 0 < p.flutterImportCount then 1/20 else 0)
      if c < 3/5 then none
      else some ⟨"flutter", sv.2, "dart", min c 1⟩

/-- The MVC-structure loop of `_detect_vanilla_php_web`: the first
existing candidate directory with controllers or views decides the bonus;
an existing directory with neither lets the loop continue. -/
def phpMvcBonus : List MvcDir → ℚ
  | [] => 0
  | d :: rest =>
    if d.dirExists then
      if d.hasControllers ∧ d.hasViews then 3/20
      else if d.hasControllers ∨ d.hasViews then 1/20
      else phpMvcBonus rest
    else phpMvcBonus rest

/-- The composer.json stage of `_detect_vanilla_php_web`: absence
permits a raw-PHP fallback when at least three root PHP files exist, a
parse error aborts, a major framework dependency disqualifies, and a
parsed manifest contributes its increments and the PHP version. -/
def vanillaComposerStage (p : SProject) : Option (ℚ × Option String) :=
  match p.composerJson with
  | none => if 3 ≤ p.rootPhpCount then some (3/10, none) else none
  | some none => none
  | some (some info) =>
    if info.hasMajorFramework then none
    else
      some ((1/10 : ℚ) + (if info.phpRequire.isSome then 1/10 else 0) +
        (if info.totalDeps < 10 then 1/10
         else if info.totalDeps < 20 then 1/20 else 0),
        info.phpRequire.map lstripVerChars)

/-- The root-PHP-file tiers of `_detect_vanilla_php_web`; too few PHP
files abort the detector. -/
def vanillaPhpFilesPart (p : SProject) : Option ℚ :=
  if 10 ≤ p.rootPhpCount then some (1/5)
  else if 5 ≤ p.rootPhpCount then some (3/20)
  else if 2 ≤ p.rootPhpCount then some (1/10)
  else if 1 ≤ p.rootPhpCount ∧ p.composerJson.isSome then some (1/20)
  else none

/-- Embeds `_detect_vanilla_php_web`: the composer stage, the
root-PHP-file tiers, routing/MVC/htaccess/bootstrap and testing
increments, the modern-JS-framework decrement, and the 0.3 floor with
the final clamp. -/
def detect_vanilla_php_web (p : SProject) : Option DetectionResult :=
  match vanillaComposerStage p with
  | none => none
  | some sv =>
    match vanillaPhpFilesPart p with
    | none => none
    | some cPhp =>
      let c := sv.1 + cPhp +
        (match p.indexPhp with
         | none => 0
         | some none => 0
         | some (some routing) => if routing then 3/20 else 1/20) +
        phpMvcBonus p.mvcDirs +
        (if p.htaccessRewrite then 1/20 else 0) +
        (if p.hasBootstrapMatch then 1/20 else 0) +
        (if p.hasPlaywrightConfig then 1/20 else 0) +
        (if p.hasCodeceptionYml then 1/20 else 0) +
        (if p.hasPhpunitXml then 1/20 else 0) +
        (match p.packageJson with
         | some (some pkg) =>
           if modernFrameworks.any fun fw => (alookup pkg.deps fw).isSome then
             -(1/10)
           else 0
         | _ => 0)
      let lang := if p.hasTsconfig ∨ p.hasTsFiles then "php-typescript" else "php"
      if c < 3/10 then none
      else some ⟨"vanilla-php-web", sv.2, lang, min 1 c⟩

/-- Embeds `_detect_python_ml`: requires some Python manifest, adds
category increments from the detected ML library classes, notebook and
scanned-import increments, the project-directory bonus, and the 0.3
floor. -/
def detect_python_ml (p : SProject) : Option DetectionResult :=
  if p.requirementsTxt.isNone ∧ p.pyprojectFastapi.isNone ∧ ¬ p.hasCondaEnv then
    none
  else
    let c := (if p.catGeneral then 3/10 else 0) +
      (if p.catDeepLearning then 1/4 else 0) +
      (if p.catCV then 1/5 else 0) + (if p.catNLP then 1/5 else 0) +
      (if 0 < p.notebookCount then 3/20 else 0) +
      (1/20) * p.mlFileMatches + (if p.hasMlDirs then 1/10 else 0)
    if c < 3/10 then none
    else some ⟨"python-ml", none, "python", min c 1⟩

/-- Embeds `_detect_ios_swift`: Xcode project markers and Swift files are
mandatory, dependency-manager and Info.plist evidence adds 0.05 each, and
the 0.5 floor applies. -/
def detect_ios_swift (p : SProject) : Option DetectionResult :=
  let c0 := (if p.hasXcodeproj then (2/5 : ℚ) else 0) +
    (if p.hasXcworkspace then 1/5 else 0)
  if ¬ p.hasXcodeproj ∧ ¬ p.hasXcworkspace then none
  else if p.swiftFileCount = 0 then none
  else
    let c := c0 + 3/10 + (if p.hasPodfile then 1/20 else 0) +
      (if p.hasPackageSwift then 1/20 else 0) +
      (if p.hasInfoPlist then 1/20 else 0)
    if c < 1/2 then none
    else some ⟨"ios-swift", none, "swift", min c 1⟩

/-- The hand-ordered detector sequence of `TechStackDetector.detect`. -/
def detectors : List (SProject → Option DetectionResult) :=
  [detect_nextjs, detect_react, detect_vue, detect_fastapi, detect_django,
   detect_flask, detect_vanilla_php_web, detect_python_ml, detect_ios_swift,
   detect_go, detect_flutter]

/-- The Python `or` chain of `TechStackDetector.detect`: the first
detector returning a (truthy) result ends the chain, regardless of that
result's confidence. -/
def firstResult (p : SProject) : Option DetectionResult :=
  (detect_nextjs p).orElse fun _ =>
  (detect_react p).orElse fun _ =>
  (detect_vue p).orElse fun _ =>
  (detect_fastapi p).orElse fun _ =>
  (detect_django p).orElse fun _ =>
  (detect_flask p).orElse fun _ =>
  (detect_vanilla_php_web p).orElse fun _ =>
  (detect_python_ml p).orElse fun _ =>
  (detect_ios_swift p).orElse fun _ =>
  (detect_go p).orElse fun _ =>
  detect_flutter p

/-- Embeds `TechStackDetector.detect`: the 0.5 confidence gate is applied
once, to the first result of the `or` chain. -/
def detect (p : SProject) : Option DetectionResult :=
  match firstResult p with
  | some r => if 1/2 < r.confidence then some r else none
  | none => none

/-- First-match semantics over an explicit detector list, used to state
the dispatch property of `detect`. -/
def firstSome (fs : List (SProject → Option DetectionResult)) (p : SProject) :
    Option DetectionResult :=
  match fs with
  | [] => none
  | f :: rest =>
    match f p with
    | some r => some r
    | none => firstSome rest p

end Stack

namespace Cache

/-- Schema/version tag baked into every cache key (`VERSION`). -/
def VERSION : String := "0.7.0-beta"

/-- Default time-to-live: 24 hours in seconds (`DEFAULT_TTL_SECONDS`). -/
def DEFAULT_TTL_SECONDS : ℚ := 24 * 60 * 60

/-- The fixed tracked-indicator-file list of `_get_key_indicator_files`. -/
def indicatorNames : List String :=
  ["package.json", "package-lock.json", "yarn.lock", "pnpm-lock.yaml",
   "requirements.txt", "pyproject.toml", "Pipfile", "setup.py",
   "go.mod", "go.sum", "pubspec.yaml", "pubspec.lock",
   "Podfile", "Podfile.lock", "composer.json", "composer.lock",
   "next.config.js", "next.config.ts", "next.config.mjs",
   "vite.config.js", "vite.config.ts"]

/-- Filesystem state of one project root as the cache sees it: the
resolved absolute path and the modification times of the files that
exist under it, in seconds. -/
structure ProjectFS where
  path : String
  files : List (String × ℚ)
deriving DecidableEq, Repr

/-- Embeds `_get_key_indicator_files`: the indicator names that exist,
in the fixed list order, with their mtimes. -/
def keyIndicatorFiles (fs : ProjectFS) : List (String × ℚ) :=
  indicatorNames.filterMap fun n => (alookup fs.files n).map fun m => (n, m)

/-- Python `int()` on a rational: truncation toward zero. -/
def pyInt (q : ℚ) : ℤ :=
  if 0 ≤ q then ⌊q⌋ else ⌈q⌉

/-- The mtime component of the cache key, modelled injectively by the
data that `_compute_mtime_hash` hashes: with no indicator files the
current timestamp, otherwise the sorted mtimes truncated to integer
seconds. -/
inductive MtimeHash
  | fallback (t : ℚ)
  | times (l : List ℤ)
deriving DecidableEq, Repr

/-- The sorted integer-second mtime list that `_compute_mtime_hash`
serialises (`sorted` on the raw mtimes, then `str(int(m))` each). -/
def sortedIntMtimes (files : List (String × ℚ)) : List ℤ :=
  ((files.map fun f => f.2).insertionSort (· ≤ ·)).map pyInt

/-- Embeds `_compute_mtime_hash`. -/
def computeMtimeHash (files : List (String × ℚ)) (now : ℚ) : MtimeHash :=
  if files = [] then .fallback now else .times (sortedIntMtimes files)

/-- Cache key, modelled injectively by the components
`{path_hash}:{mtime_hash}:{version}` of `generate_key`. -/
structure Key where
  pathHash : String
  mtimeHash : MtimeHash
  version : String
deriving DecidableEq, Repr

/-- Embeds `DetectionCache.generate_key`. -/
def generate_key (fs : ProjectFS) (now : ℚ) : Key :=
  ⟨fs.path, computeMtimeHash (keyIndicatorFiles fs) now, VERSION⟩

/-- One persisted cache entry (`result` is a detection-result dict,
modelled as a string-keyed association list). -/
structure Entry where
  result : List (String × String)
  cached_at : ℚ
  version : String
deriving DecidableEq, Repr

/-- In-memory image of the persisted cache: the JSON store plus the
hit/miss metadata counters. -/
structure CacheState where
  store : List (Key × Entry)
  hits : ℕ
  misses : ℕ
deriving DecidableEq, Repr

/-- Cache configuration: the time-to-live in seconds. -/
structure Config where
  ttl : ℚ
deriving DecidableEq, Repr

/-- The default cache configuration. -/
def defaultConfig : Config := ⟨DEFAULT_TTL_SECONDS⟩

/-- Python dict assignment `cache_data[key] = entry`. -/
def storeInsert (store : List (Key × Entry)) (k : Key) (e : Entry) :
    List (Key × Entry) :=
  (k, e) :: store.filter fun kv => kv.1 ≠ k

/-- Python `del cache_data[key]`. -/
def storeErase (store : List (Key × Entry)) (k : Key) : List (Key × Entry) :=
  store.filter fun kv => kv.1 ≠ k

/-- Embeds `DetectionCache.set`: the entry is stored under the freshly
generated key; afterwards the debug log line indexes
`result['framework']`, which raises a KeyError (returned as the second
component) when the key is missing - after the store was already
written. -/
def set (st : CacheState) (fs : ProjectFS) (result : List (String × String))
    (now : ℚ) : CacheState × Option String :=
  let key := generate_key fs now
  let entry : Entry := ⟨result, now, VERSION⟩
  let st1 : CacheState := ⟨storeInsert st.store key entry, st.hits, st.misses⟩
  match alookup result "framework" with
  | some _ => (st1, none)
  | none => (st1, some "KeyError")

/-- Embeds `DetectionCache.get`: key lookup, the TTL check with eager
deletion of the expired entry, and the hit path whose log line indexes
`entry['result']['framework']` before the hit counter is incremented. -/
def get (cfg : Config) (st : CacheState) (fs : ProjectFS) (now : ℚ) :
    Except String (Option (List (String × String))) × CacheState :=
  let key := generate_key fs now
  match alookup st.store key with
  | none => (.ok none, ⟨st.store, st.hits, st.misses + 1⟩)
  | some entry =>
    if cfg.ttl < now - entry.cached_at then
      (.ok none, ⟨storeErase st.store key, st.hits, st.misses + 1⟩)
    else
      match alookup entry.result "framework" with
      | none => (.error "KeyError", st)
      | some _ => (.ok (some entry.result), ⟨st.store, st.hits + 1, st.misses⟩)

end Cache

namespace Mono

/-- Information about one workspace (`WorkspaceInfo`; the
`framework`/`detection_result` fields populated later by the driver are
not part of detection). -/
structure WorkspaceInfo where
  name : String
  path : String
  package_manager : String
deriving DecidableEq, Repr

/-- Result of monorepo detection (`MonorepoResult`). -/
structure MonorepoResult where
  is_monorepo : Bool
  workspace_manager : Option String
  workspaces : List WorkspaceInfo
  root_path : Option String
deriving DecidableEq, Repr

/-- One directory entry matched by a workspace glob pattern: its base
name, whether it is a directory, and the parse outcome of its
package.json (`none` = no package.json, `some none` = parse error,
`some (some nameField)` = parsed with the optional `name` field). -/
structure Candidate where
  dirName : String
  isDir : Bool
  pkgJson : Option (Option (Option String))
deriving DecidableEq, Repr

/-- Probe outcome for pnpm-workspace.yaml: absent, unparseable, parsed
without a usable `packages` field (including an empty document), or
parsed with its pattern list.  PyYAML is modelled as installed. -/
inductive PnpmFile
  | absent
  | parseError
  | noPackages
  | packages (patterns : List String)
deriving DecidableEq, Repr

/-- Shape of the `workspaces` field of package.json: bare array, object
with an optional `packages` list, or any other JSON value. -/
inductive NpmWorkspacesField
  | arr (patterns : List String)
  | obj (packagesField : Option (List String))
  | other
deriving DecidableEq, Repr

/-- Probe outcome for the root package.json in monorepo detection. -/
inductive PackageJsonFile
  | absent
  | parseError
  | parsed (workspaces : Option NpmWorkspacesField)
deriving DecidableEq, Repr

/-- Probe outcome for lerna.json. -/
inductive LernaFile
  | absent
  | parseError
  | parsed (packagesField : Option (List String))
deriving DecidableEq, Repr

/-- One entry of the `projects` map of workspace.json: a bare path
string, a config object with an optional `root`, or another JSON type. -/
inductive NxProjectCfg
  | strPath (s : String)
  | objCfg (root : Option String)
  | other
deriving DecidableEq, Repr

/-- Probe outcome for workspace.json. -/
inductive WorkspaceJsonFile
  | absent
  | parseError
  | parsed (projects : List (String × NxProjectCfg))
deriving DecidableEq, Repr

/-- One project.json file found by the recursive Nx scan. -/
structure ProjectJsonFile where
  inNxCache : Bool
  dirName : String
  parse : Option (Option String)
deriving Repr

/-- Filesystem evidence consumed by `MonorepoDetector`: the manifest
probe outcomes, the glob expansion oracle and the directory-existence
oracle. -/
structure Project where
  root : String
  pnpm : PnpmFile
  packageJson : PackageJsonFile
  lerna : LernaFile
  hasNxJson : Bool
  workspaceJson : WorkspaceJsonFile
  projectJsonFiles : List ProjectJsonFile
  glob : String → List Candidate
  dirExists : String → Bool

/-- The shared glob-expansion loop of the pnpm/npm/Lerna managers: keep
directory matches whose package.json parses, naming each workspace from
the manifest `name` field or the directory base name. -/
def expandPatterns (p : Project) (patterns : List String) (mgr : String) :
    List WorkspaceInfo :=
  (patterns.map fun pat =>
    (p.glob pat).filterMap fun c =>
      if ¬ c.isDir then none
      else
        match c.pkgJson with
        | none => none
        | some none => none
        | some (some nameField) =>
          some ⟨nameField.getD c.dirName, c.dirName, mgr⟩).flatten

/-- Embeds `_detect_pnpm_workspaces`: a parse failure or a missing
`packages` field commits to a negative result. -/
def detect_pnpm_workspaces (p : Project) : MonorepoResult :=
  match p.pnpm with
  | .packages pats => ⟨true, some "pnpm", expandPatterns p pats "pnpm", some p.root⟩
  | _ => ⟨false, none, [], some p.root⟩

/-- Embeds `_detect_npm_workspaces` for a present `workspaces` field. -/
def detect_npm_workspaces (p : Project) (cfg : NpmWorkspacesField) :
    MonorepoResult :=
  let patterns :=
    match cfg with
    | .arr pats => pats
    | .obj pkgs => pkgs.getD []
    | .other => []
  ⟨true, some "npm", expandPatterns p patterns "npm", some p.root⟩

/-- Embeds `_detect_lerna_workspaces`: a parse failure commits to a
negative result; a missing `packages` field defaults to `packages/*`. -/
def detect_lerna_workspaces (p : Project) : MonorepoResult :=
  match p.lerna with
  | .parsed pkgs =>
    ⟨true, some "lerna", expandPatterns p (pkgs.getD ["packages/*"]) "lerna",
     some p.root⟩
  | _ => ⟨false, none, [], some p.root⟩

/-- Embeds `_detect_nx_workspaces`: the workspace.json projects (when the
resolved path is a directory) unioned with the recursive project.json
scan (skipping the `.nx` cache), without deduplication. -/
def detect_nx_workspaces (p : Project) : MonorepoResult :=
  let fromWorkspaceJson : List WorkspaceInfo :=
    match p.workspaceJson with
    | .parsed projects =>
      projects.filterMap fun pr =>
        let pathOpt : Option String :=
          match pr.2 with
          | .strPath s => some s
          | .objCfg root => some (root.getD pr.1)
          | .other => none
        match pathOpt with
        | some pth => if p.dirExists pth then some ⟨pr.1, pth, "nx"⟩ else none
        | none => none
    | _ => []
  let fromProjectJson : List WorkspaceInfo :=
    p.projectJsonFiles.filterMap fun f =>
      if f.inNxCache then none
      else
        match f.parse with
        | none => none
        | some nameField => some ⟨nameField.getD f.dirName, f.dirName, "nx"⟩
  ⟨true, some "nx", fromWorkspaceJson ++ fromProjectJson, some p.root⟩

/-- Embeds `MonorepoDetector.detect`: pnpm-workspace.yaml presence
commits to pnpm; otherwise a parsed package.json with a `workspaces`
field commits to npm (a package.json parse error only logs and falls
through); then lerna.json presence commits to Lerna; then nx.json. -/
def detect (p : Project) : MonorepoResult :=
  if p.pnpm ≠ .absent then detect_pnpm_workspaces p
  else
    match p.packageJson with
    | .parsed (some cfg) => detect_npm_workspaces p cfg
    | _ =>
      match p.lerna with
      | .absent =>
        if p.hasNxJson then detect_nx_workspaces p
        else ⟨false, none, [], some p.root⟩
      | _ => detect_lerna_workspaces p

/-- The monorepo detector performs no existence check on the project
path; a nonexistent root simply presents no manifest files. -/
def nonexistentProject (root : String) : Project :=
  ⟨root, .absent, .absent, .absent, false, .absent, [], fun _ => [], fun _ => false⟩

end Mono

/-- Embeds the module-level `detect_tech_stack` entry point: the
constructor's FileNotFoundError (and any other exception) is caught and
converted to `None`. -/
def detect_tech_stack (pathExists : Bool) (p : Stack.SProject) :
    Option Stack.DetectionResult :=
  if pathExists then Stack.detect p else none

/-- Embeds the module-level `detect_development_phase` entry point of the
adaptive-review detector: the constructor raises FileNotFoundError for a
nonexistent path, and nothing catches it. -/
def detect_development_phase (pathExists : Bool) (p : AR.Project) :
    Except String AR.PhaseResult :=
  if pathExists then .ok (AR.detect p) else .error "FileNotFoundError"

/-- Embeds the module-level `detect_phase` entry point of the
project-analyzer detector: the constructor raises FileNotFoundError for
a nonexistent path, and nothing catches it. -/
def detect_phase (pathExists : Bool) (p : PA.Project) :
    Except String PA.PhaseResult :=
  if pathExists then .ok (PA.detect p) else .error "FileNotFoundError"

/-- A stack-detection project presenting no evidence at all (every
manifest absent, every count zero, the three MVC candidate directories
nonexistent). -/
def Stack.emptyProject : Stack.SProject where
  packageJson := none
  hasTsconfig := false
  hasNextConfig := false
  hasAppDir := false
  hasPagesDir := false
  requirementsTxt := none
  pyprojectFastapi := none
  hasSetupPy := false
  fastapiFileMatches := 0
  entryHasFastapi := false
  hasManagePy := false
  goMod := none
  goFileMatches := 0
  hasDockerfile := false
  pubspec := none
  hasLibDir := false
  hasAndroidDir := false
  hasIosDir := false
  mainDart := none
  flutterImportCount := 0
  composerJson := none
  rootPhpCount := 0
  indexPhp := none
  mvcDirs := [⟨false, false, false⟩, ⟨false, false, false⟩, ⟨false, false, false⟩]
  htaccessRewrite := false
  hasBootstrapMatch := false
  hasTsFiles := false
  hasPlaywrightConfig := false
  hasCodeceptionYml := false
  hasPhpunitXml := false
  hasCondaEnv := false
  catGeneral := false
  catDeepLearning := false
  catCV := false
  catNLP := false
  notebookCount := 0
  mlFileMatches := 0
  hasMlDirs := false
  hasXcodeproj := false
  hasXcworkspace := false
  swiftFileCount := 0
  hasPodfile := false
  hasPackageSwift := false
  hasInfoPlist := false

/-- A project whose package.json declares only the `next` dependency
(no next.config.*, no app/ or pages/ directory), so the Next.js detector
fires at exactly confidence 0.5, while go.mod with the Gin framework
would let the Go detector fire at 0.85. -/
def Stack.c2Project : Stack.SProject :=
  { Stack.emptyProject with
    packageJson := some (some ⟨[("next", "13.0.0")]⟩),
    goMod := some (some ⟨some .gin, none, false⟩) }

/-- A PHP project with ten root-level PHP files, an index.php with
routing markers, and a composer.json that does not parse. -/
def Stack.phpInvalidComposerProject : Stack.SProject :=
  { Stack.emptyProject with
    composerJson := some none,
    rootPhpCount := 10,
    indexPhp := some (some true) }

/-- The same PHP project with the composer.json removed. -/
def Stack.phpNoComposerProject : Stack.SProject :=
  { Stack.phpInvalidComposerProject with composerJson := none }

/-- A Go project whose only evidence is go.mod with the Gin framework. -/
def Stack.goGinProject : Stack.SProject :=
  { Stack.emptyProject with goMod := some (some ⟨some .gin, none, false⟩) }

/-- A Django project: manage.py is its only evidence. -/
def Stack.djangoProject : Stack.SProject :=
  { Stack.emptyProject with hasManagePy := true }

/-- An adaptive-review project with a well-formed user override declaring
`MVP` while every other signal points at production. -/
def AR.overrideProject : AR.Project where
  phaseFile := .parsed (some "MVP")
  packageJson := some (some (.semver 3 2 1))
  pyproject := none
  git := .ok 500 30 9
  testFileCount := 40
  hasTestConfig := true
  hasCI := true
  hasReadme := true
  docCount := 5
  structureCount := 8

/-- An adaptive-review project with no override file and a 0.1.0
package.json version. -/
def AR.noOverrideProject : AR.Project where
  phaseFile := .absent
  packageJson := some (some (.semver 0 1 0))
  pyproject := none
  git := .noRepo
  testFileCount := 0
  hasTestConfig := false
  hasCI := false
  hasReadme := false
  docCount := 0
  structureCount := 0

/-- A project-analyzer phase project with no evidence at all (the git
probes report zero commits and a single contributor, as they do outside
a repository). -/
def PA.emptyProject : PA.Project where
  todoCount := 0
  placeholderCount := 0
  consoleCount := 0
  errorHandlingCount := 0
  testFileCount3 := 0
  specJsTsCount := 0
  hasGithubWorkflows := false
  hasGitlabCI := false
  hasCircleCI := false
  hasJenkinsfile := false
  hasDotEnv := false
  hasDotEnvExample := false
  hasConfigPy := false
  hasConfigJs := false
  hasConfigEnvironments := false
  hasReadme := false
  hasGitignore := false
  hasDocsDir := false
  docsMdCount := 0
  commitCount := 0
  contributorCount := 1
  monitoringCount := 0
  loggingCount := 0
  securityCount := 0
  prodDepsCount := 0
  hasEslintrc := false
  hasPrettierrc := false
  hasPyprojectToml := false
  hasPylintrc := false
  hasDeployYml := false
  hasDockerfile := false

/-- A cache-visible project root containing none of the tracked
indicator files. -/
def Cache.bareFS : Cache.ProjectFS := ⟨"/home/user/proj", []⟩

/-- A cache-visible project root whose package.json has mtime 100.2s. -/
def Cache.fsMtimeA : Cache.ProjectFS := ⟨"/home/user/proj", [("package.json", 501/5)]⟩

/-- The same root after touching package.json to mtime 100.6s: a
0.4-second update that leaves the integer second unchanged. -/
def Cache.fsMtimeB : Cache.ProjectFS := ⟨"/home/user/proj", [("package.json", 503/5)]⟩

/-- The same root after touching package.json to mtime 200s. -/
def Cache.fsMtimeC : Cache.ProjectFS := ⟨"/home/user/proj", [("package.json", 200)]⟩

/-- A detection-result dict with a `framework` key. -/
def Cache.goResult : List (String × String) := [("framework", "go")]

/-- A detection-result dict lacking the `framework` key. -/
def Cache.noFrameworkResult : List (String × String) := [("language", "go")]

/-- The empty cache state. -/
def Cache.emptyState : Cache.CacheState := ⟨[], 0, 0⟩

/-- A cache state holding one fresh entry whose stored result lacks the
`framework` key. -/
def Cache.badEntryState : Cache.CacheState :=
  ⟨[(Cache.generate_key Cache.fsMtimeA 50, ⟨Cache.noFrameworkResult, 50, Cache.VERSION⟩)], 0, 0⟩

/-- A monorepo root whose pnpm-workspace.yaml contains invalid YAML while
its package.json carries a valid npm `workspaces` field. -/
def Mono.c9Project : Mono.Project where
  root := "/repo"
  pnpm := .parseError
  packageJson := .parsed (some (.arr ["packages/a"]))
  lerna := .absent
  hasNxJson := false
  workspaceJson := .absent
  projectJsonFiles := []
  glob := fun _ => [⟨"a", true, some (some (some "pkg-a"))⟩]
  dirExists := fun _ => false

/-
Theorems.  Each claim of the review has exactly one theorem below, with
auxiliary lemmas shared freely between them.
-/

/-- A conditional with two nonnegative branches is nonnegative. -/
theorem q_ite_nonneg {c : Prop} [Decidable c] {a b : ℚ} (ha : 0 ≤ a) (hb : 0 ≤ b) :
    0 ≤ if c then a else b := by
  split <;> assumption

/-- The winner of the arg-max attains the maximal score. -/
theorem winner_is_max (f : Phase → ℚ) (ph : Phase) : f ph ≤ f (winner f) := by
  unfold winner
  split_ifs with h1 h2
  · cases ph with
    | prototype => exact le_refl _
    | mvp => exact h1.1
    | production => exact h1.2
  · push_neg at h1
    cases ph with
    | prototype =>
      rcases le_or_lt (f .mvp) (f .prototype) with hc | hc
      · linarith [h1 hc]
      · linarith
    | mvp => exact le_refl _
    | production => exact h2
  · push_neg at h1
    push_neg at h2
    cases ph with
    | prototype =>
      rcases le_or_lt (f .mvp) (f .prototype) with hc | hc
      · linarith [h1 hc]
      · linarith
    | mvp => linarith
    | production => exact le_refl _

/-- Lookup of a fresh key after a dict insertion. -/
theorem alookup_insert_self (store : List (Cache.Key × Cache.Entry))
    (k : Cache.Key) (e : Cache.Entry) :
    alookup (Cache.storeInsert store k e) k = some e := by
  simp [Cache.storeInsert, alookup]

/-- Lookup commutes with removal of entries under a different key. -/
theorem alookup_filter_ne {κ α : Type} [DecidableEq κ] (l : List (κ × α))
    (k k' : κ) (h : k' ≠ k) :
    alookup (l.filter fun kv => kv.1 ≠ k) k' = alookup l k' := by
  induction l with
  | nil => rfl
  | cons kv rest ih =>
    simp only [ne_eq, decide_not] at ih
    by_cases hk : kv.1 = k
    · have h' : ¬ k = k' := fun hh => h hh.symm
      simp [List.filter_cons, hk, alookup, h', ih]
    · by_cases hk' : kv.1 = k'
      · simp [List.filter_cons, hk, alookup, hk', h]
      · simp [List.filter_cons, hk, alookup, hk', ih]

/-- Lookup of a different key is unaffected by a dict insertion. -/
theorem alookup_insert_ne (store : List (Cache.Key × Cache.Entry))
    (k k' : Cache.Key) (e : Cache.Entry) (h : k' ≠ k) :
    alookup (Cache.storeInsert store k e) k' = alookup store k' := by
  unfold Cache.storeInsert
  rw [alookup, if_neg fun hh => h hh.symm]
  exact alookup_filter_ne store k k' h

/-- C1: for every project whose readable `.claude/phase.yml` declares a
phase whose lowercasing lies in the label enum, phase detection returns
exactly that phase with `override_source = "user"` and confidence 1.0,
regardless of all other filesystem evidence. -/
theorem c1_override_supremacy (p : AR.Project) (fld : Option String) (ph : Phase)
    (hfile : p.phaseFile = .parsed fld)
    (hph : AR.phaseOfString (AR.pyLower (fld.getD "")) = some ph) :
    (AR.detect p).phase = ph ∧ (AR.detect p).override_source = some "user" ∧
      (AR.detect p).confidence = 1 := by
  have hu : AR.detect_user_config p =
      some ⟨"user_config", ph, 1, AR.WEIGHTS "user_config"⟩ := by
    simp [AR.detect_user_config, hfile, hph]
  norm_num [AR.detect, hu]

/-- Witness for C1: a project declaring `MVP` while version, git, tests,
CI, docs and structure all point at production. -/
theorem c1_override_witness :
    (AR.detect AR.overrideProject).phase = Phase.mvp ∧
    (AR.detect AR.overrideProject).override_source = some "user" ∧
    (AR.detect AR.overrideProject).confidence = 1 :=
  c1_override_supremacy AR.overrideProject (some "MVP") Phase.mvp rfl (by decide)

/-- C9: a pnpm-workspace.yaml that exists but fails to parse commits
monorepo detection to a negative verdict (no manager, no workspaces),
with no fallback to the npm/Yarn, Lerna or Nx checks, whatever the rest
of the root contains. -/
theorem c9_committed_pnpm_failure (p : Mono.Project) (h : p.pnpm = .parseError) :
    Mono.detect p = ⟨false, none, [], some p.root⟩ := by
  unfold Mono.detect Mono.detect_pnpm_workspaces
  rw [h]
  simp

/-- Witness for C9: the pnpm manifest is unparseable while package.json
holds a valid `workspaces` field whose pattern would match a workspace. -/
theorem c9_committed_pnpm_failure_witness :
    Mono.detect Mono.c9Project = ⟨false, none, [], some "/repo"⟩ :=
  c9_committed_pnpm_failure Mono.c9Project rfl

/-- C10: a fresh cache entry whose stored result dict lacks the
`framework` key makes `get` raise a KeyError on the hit path instead of
returning the result. -/
theorem c10_hit_keyerror (cfg : Cache.Config) (st : Cache.CacheState)
    (fs : Cache.ProjectFS) (now : ℚ) (e : Cache.Entry)
    (hfind : alookup st.store (Cache.generate_key fs now) = some e)
    (hfresh : ¬ cfg.ttl < now - e.cached_at)
    (hfw : alookup e.result "framework" = none) :
    (Cache.get cfg st fs now).1 = .error "KeyError" := by
  simp only [Cache.get]
  rw [hfind]
  simp [hfresh, hfw]

/-- Evaluation of the cache key of the project root whose package.json
has mtime 100.2s: the fractional part is truncated away and the
timestamp argument is ignored. -/
theorem keyA_eval (t : ℚ) : Cache.generate_key Cache.fsMtimeA t =
    ⟨"/home/user/proj", .times [100], Cache.VERSION⟩ := by
  have h1 : Cache.keyIndicatorFiles Cache.fsMtimeA = [("package.json", 501/5)] := by
    simp [Cache.keyIndicatorFiles, Cache.indicatorNames, Cache.fsMtimeA, alookup]
  unfold Cache.generate_key
  rw [h1]
  unfold Cache.computeMtimeHash
  rw [if_neg (by simp)]
  unfold Cache.sortedIntMtimes
  simp only [List.map_cons, List.map_nil, List.insertionSort]
  norm_num [Cache.pyInt, Cache.fsMtimeA]

/-- Evaluation of the cache key of the same root after the 0.4-second
touch to mtime 100.6s: the truncated mtime list is unchanged. -/
theorem keyB_eval (t : ℚ) : Cache.generate_key Cache.fsMtimeB t =
    ⟨"/home/user/proj", .times [100], Cache.VERSION⟩ := by
  have h1 : Cache.keyIndicatorFiles Cache.fsMtimeB = [("package.json", 503/5)] := by
    simp [Cache.keyIndicatorFiles, Cache.indicatorNames, Cache.fsMtimeB, alookup]
  unfold Cache.generate_key
  rw [h1]
  unfold Cache.computeMtimeHash
  rw [if_neg (by simp)]
  unfold Cache.sortedIntMtimes
  simp only [List.map_cons, List.map_nil, List.insertionSort]
  norm_num [Cache.pyInt, Cache.fsMtimeB]

/-- Evaluation of the cache key of the same root after touching
package.json to mtime 200s. -/
theorem keyC_eval (t : ℚ) : Cache.generate_key Cache.fsMtimeC t =
    ⟨"/home/user/proj", .times [200], Cache.VERSION⟩ := by
  have h1 : Cache.keyIndicatorFiles Cache.fsMtimeC = [("package.json", 200)] := by
    simp [Cache.keyIndicatorFiles, Cache.indicatorNames, Cache.fsMtimeC, alookup]
  unfold Cache.generate_key
  rw [h1]
  unfold Cache.computeMtimeHash
  rw [if_neg (by simp)]
  unfold Cache.sortedIntMtimes
  simp only [List.map_cons, List.map_nil, List.insertionSort]
  norm_num [Cache.pyInt, Cache.fsMtimeC]

/-- Evaluation of the cache key of a root with no tracked indicator
files: the mtime component degenerates to the current timestamp. -/
theorem keyBare_eval (t : ℚ) : Cache.generate_key Cache.bareFS t =
    ⟨"/home/user/proj", .fallback t, Cache.VERSION⟩ := by
  have h1 : Cache.keyIndicatorFiles Cache.bareFS = [] := by
    simp [Cache.keyIndicatorFiles, Cache.indicatorNames, Cache.bareFS, alookup]
  unfold Cache.generate_key
  rw [h1]
  rfl

/-- Witness for C10: a store holding one ten-second-old entry whose
result records only a language. -/
theorem c10_hit_keyerror_witness :
    (Cache.get Cache.defaultConfig Cache.badEntryState Cache.fsMtimeA 60).1 =
      .error "KeyError" :=
  c10_hit_keyerror Cache.defaultConfig Cache.badEntryState Cache.fsMtimeA 60
    ⟨Cache.noFrameworkResult, 50, Cache.VERSION⟩
    (by simp [Cache.badEntryState, keyA_eval, alookup])
    (by norm_num [Cache.defaultConfig, Cache.DEFAULT_TTL_SECONDS]) (by decide)

/-- C7, counterexample: both phase-detection entry points raise
FileNotFoundError to the caller for a nonexistent path, contradicting
the claim that no public classification entry point raises. -/
theorem c7_counterexample :
    detect_development_phase false AR.noOverrideProject =
      .error "FileNotFoundError" ∧
    detect_phase false PA.emptyProject = .error "FileNotFoundError" :=
  ⟨rfl, rfl⟩

/-- C7 as amended: for a nonexistent path, stack detection catches the
constructor's FileNotFoundError and returns None, and monorepo detection
returns a negative verdict without raising; the two phase-detection
entry points instead propagate FileNotFoundError to the caller. -/
theorem c7_amended_nonexistent_path (pS : Stack.SProject) (pAR : AR.Project)
    (pPA : PA.Project) (root : String) :
    detect_tech_stack false pS = none ∧
    detect_development_phase false pAR = .error "FileNotFoundError" ∧
    detect_phase false pPA = .error "FileNotFoundError" ∧
    (Mono.detect (Mono.nonexistentProject root)).is_monorepo = false :=
  ⟨rfl, rfl, rfl, rfl⟩

/-- The state returned by `set` always carries the inserted entry,
whether or not the subsequent log line raises a KeyError. -/
theorem set_store_eq (st : Cache.CacheState) (fs : Cache.ProjectFS)
    (result : List (String × String)) (t1 : ℚ) :
    (Cache.set st fs result t1).1 =
      ⟨Cache.storeInsert st.store (Cache.generate_key fs t1)
        ⟨result, t1, Cache.VERSION⟩, st.hits, st.misses⟩ := by
  unfold Cache.set
  cases h : alookup result "framework" <;> simp [h]

/-- A get whose key misses the store returns `ok none`. -/
theorem get_eval_miss (cfg : Cache.Config) (st : Cache.CacheState)
    (fs : Cache.ProjectFS) (now : ℚ)
    (hfind : alookup st.store (Cache.generate_key fs now) = none) :
    (Cache.get cfg st fs now).1 = .ok none := by
  simp only [Cache.get]
  rw [hfind]

/-- A get whose key finds a fresh entry with a framework field returns
the stored result. -/
theorem get_eval_hit (cfg : Cache.Config) (st : Cache.CacheState)
    (fs : Cache.ProjectFS) (now : ℚ) (entry : Cache.Entry) (v : String)
    (hfind : alookup st.store (Cache.generate_key fs now) = some entry)
    (httl : ¬ cfg.ttl < now - entry.cached_at)
    (hfw : alookup entry.result "framework" = some v) :
    (Cache.get cfg st fs now).1 = .ok (some entry.result) := by
  simp only [Cache.get]
  rw [hfind]
  dsimp only
  rw [if_neg httl, hfw]

/-- C5, counterexample: on a root with no tracked indicator files the
mtime component of the key is derived from the current time, so a `set`
at time 0 followed by a `get` one second later (with no filesystem
mutation at all) misses instead of returning the stored result. -/
theorem c5_counterexample :
    (Cache.get Cache.defaultConfig
      (Cache.set Cache.emptyState Cache.bareFS Cache.goResult 0).1
      Cache.bareFS 1).1 = .ok none ∧
    (Except.ok none : Except String (Option (List (String × String)))) ≠
      .ok (some Cache.goResult) := by
  constructor
  · refine get_eval_miss _ _ _ _ ?_
    rw [set_store_eq]
    dsimp only
    rw [alookup_insert_ne]
    · simp [Cache.emptyState, alookup]
    · rw [keyBare_eval, keyBare_eval]
      intro hcontra
      rw [Cache.Key.mk.injEq] at hcontra
      obtain ⟨_, h2, _⟩ := hcontra
      injection h2 with h3
      norm_num at h3
  · simp [Cache.goResult]

/-- C5 as amended: the round-trip holds for every root that contains at
least one tracked indicator file, provided the stored result dict has a
`framework` key (otherwise `set` itself raises) and the `get` happens
within the time-to-live of the `set`. -/
theorem c5_amended_roundtrip (cfg : Cache.Config) (st : Cache.CacheState)
    (fs : Cache.ProjectFS) (result : List (String × String)) (t1 t2 : ℚ)
    (hind : Cache.keyIndicatorFiles fs ≠ [])
    (hfw : (alookup result "framework").isSome)
    (httl : t2 - t1 ≤ cfg.ttl) :
    (Cache.get cfg (Cache.set st fs result t1).1 fs t2).1 =
      .ok (some result) := by
  have hkey : Cache.generate_key fs t2 = Cache.generate_key fs t1 := by
    unfold Cache.generate_key Cache.computeMtimeHash
    rw [if_neg hind, if_neg hind]
  obtain ⟨v, hv⟩ := Option.isSome_iff_exists.mp hfw
  refine get_eval_hit _ _ _ _ ⟨result, t1, Cache.VERSION⟩ v ?_ ?_ hv
  · rw [set_store_eq]
    dsimp only
    rw [hkey, alookup_insert_self]
  · dsimp only
    simp only [not_lt]
    linarith

/-- Witness for C5 as amended: a root with a package.json indicator, a
result carrying a framework, and a one-second-later get. -/
theorem c5_amended_roundtrip_witness :
    (Cache.get Cache.defaultConfig
      (Cache.set Cache.emptyState Cache.fsMtimeA Cache.goResult 0).1
      Cache.fsMtimeA 1).1 = .ok (some Cache.goResult) :=
  c5_amended_roundtrip Cache.defaultConfig Cache.emptyState Cache.fsMtimeA
    Cache.goResult 0 1
    (by simp [Cache.keyIndicatorFiles, Cache.indicatorNames, Cache.fsMtimeA, alookup])
    (by decide)
    (by norm_num [Cache.defaultConfig, Cache.DEFAULT_TTL_SECONDS])

/-- C6, counterexample: touching the tracked package.json from mtime
100.2s to 100.6s - an update of less than one second that leaves the
integer second unchanged - does NOT invalidate the entry: the get after
the touch is a hit, not a miss. -/
theorem c6_counterexample :
    (Cache.get Cache.defaultConfig
      (Cache.set Cache.emptyState Cache.fsMtimeA Cache.goResult 0).1
      Cache.fsMtimeB 1).1 = .ok (some Cache.goResult) ∧
    Cache.fsMtimeB ≠ Cache.fsMtimeA ∧ (503/5 : ℚ) - 501/5 < 1 := by
  refine ⟨?_, by norm_num [Cache.fsMtimeA, Cache.fsMtimeB], by norm_num⟩
  have hkey : Cache.generate_key Cache.fsMtimeB 1 =
      Cache.generate_key Cache.fsMtimeA 0 := by
    rw [keyA_eval, keyB_eval]
  refine get_eval_hit _ _ _ _ ⟨Cache.goResult, 0, Cache.VERSION⟩ "go" ?_ ?_ ?_
  · rw [set_store_eq]
    dsimp only
    rw [hkey, alookup_insert_self]
  · dsimp only
    norm_num [Cache.defaultConfig, Cache.DEFAULT_TTL_SECONDS]
  · simp [Cache.goResult, alookup]

/-- C6 as amended: an mtime update invalidates the cache exactly when it
changes the sorted integer-second mtime list: whenever the truncated
lists of the tracked indicator files differ (and the new key is not
already present in the prior store), the get after a set misses. -/
theorem c6_amended_invalidation (cfg : Cache.Config) (st : Cache.CacheState)
    (fs fs' : Cache.ProjectFS) (result : List (String × String)) (t1 t2 : ℚ)
    (hind : Cache.keyIndicatorFiles fs ≠ [])
    (hind' : Cache.keyIndicatorFiles fs' ≠ [])
    (hmt : Cache.sortedIntMtimes (Cache.keyIndicatorFiles fs') ≠
      Cache.sortedIntMtimes (Cache.keyIndicatorFiles fs))
    (hstore : alookup st.store (Cache.generate_key fs' t2) = none) :
    (Cache.get cfg (Cache.set st fs result t1).1 fs' t2).1 = .ok none := by
  have hne : Cache.generate_key fs' t2 ≠ Cache.generate_key fs t1 := by
    unfold Cache.generate_key Cache.computeMtimeHash
    rw [if_neg hind, if_neg hind']
    intro hcontra
    rw [Cache.Key.mk.injEq] at hcontra
    obtain ⟨_, h2, _⟩ := hcontra
    injection h2 with h3
    exact hmt h3
  refine get_eval_miss _ _ _ _ ?_
  rw [set_store_eq]
  dsimp only
  rw [alookup_insert_ne _ _ _ _ hne, hstore]

/-- Witness for C6 as amended: touching package.json from 100.2s to
200s changes the integer second, and the get after the set misses. -/
theorem c6_amended_invalidation_witness :
    (Cache.get Cache.defaultConfig
      (Cache.set Cache.emptyState Cache.fsMtimeA Cache.goResult 0).1
      Cache.fsMtimeC 1).1 = .ok none :=
  c6_amended_invalidation Cache.defaultConfig Cache.emptyState Cache.fsMtimeA
    Cache.fsMtimeC Cache.goResult 0 1
    (by simp [Cache.keyIndicatorFiles, Cache.indicatorNames, Cache.fsMtimeA, alookup])
    (by simp [Cache.keyIndicatorFiles, Cache.indicatorNames, Cache.fsMtimeC, alookup])
    (by
      have hA : Cache.keyIndicatorFiles Cache.fsMtimeA = [("package.json", 501/5)] := by
        simp [Cache.keyIndicatorFiles, Cache.indicatorNames, Cache.fsMtimeA, alookup]
      have hC : Cache.keyIndicatorFiles Cache.fsMtimeC = [("package.json", 200)] := by
        simp [Cache.keyIndicatorFiles, Cache.indicatorNames, Cache.fsMtimeC, alookup]
      rw [hA, hC]
      unfold Cache.sortedIntMtimes
      simp only [List.map_cons, List.map_nil, List.insertionSort]
      norm_num [Cache.pyInt])
    (by simp [Cache.emptyState, alookup])

/-- The explicit first-match recursion over the detector list coincides
with the `or` chain of `TechStackDetector.detect`. -/
theorem firstSome_eq_firstResult (p : Stack.SProject) :
    Stack.firstSome Stack.detectors p = Stack.firstResult p := by
  simp only [Stack.detectors, Stack.firstSome, Stack.firstResult, Option.orElse]
  cases Stack.detect_nextjs p with
  | some r => rfl
  | none =>
  cases Stack.detect_react p with
  | some r => rfl
  | none =>
  cases Stack.detect_vue p with
  | some r => rfl
  | none =>
  cases Stack.detect_fastapi p with
  | some r => rfl
  | none =>
  cases Stack.detect_django p with
  | some r => rfl
  | none =>
  cases Stack.detect_flask p with
  | some r => rfl
  | none =>
  cases Stack.detect_vanilla_php_web p with
  | some r => rfl
  | none =>
  cases Stack.detect_python_ml p with
  | some r => rfl
  | none =>
  cases Stack.detect_ios_swift p with
  | some r => rfl
  | none =>
  cases Stack.detect_go p with
  | some r => rfl
  | none =>
  cases Stack.detect_flutter p with
  | some r => rfl
  | none => rfl

/-- C2, counterexample: a project whose package.json declares `next`
with no further Next.js evidence makes the Next.js detector return
confidence exactly 0.5; the `or` chain stops there and the 0.5 gate
rejects it, so detection returns None - even though the Go detector,
later in the sequence, would return 0.85 for the same project. -/
theorem c2_counterexample :
    Stack.detect Stack.c2Project = none ∧
    Stack.detect_go Stack.c2Project = some ⟨"go-gin", none, "go", 17/20⟩ ∧
    (1/2 : ℚ) < 17/20 := by
  refine ⟨?_, ?_, by norm_num⟩
  · have h1 : Stack.detect_nextjs Stack.c2Project =
        some ⟨"nextjs", some (Stack.lstripCaretTilde "13.0.0"), "javascript",
          (1/2 : ℚ)⟩ := by
      unfold Stack.detect_nextjs
      simp [Stack.c2Project, Stack.emptyProject, alookup]
      norm_num
    have hfr : Stack.firstResult Stack.c2Project =
        some ⟨"nextjs", some (Stack.lstripCaretTilde "13.0.0"), "javascript",
          (1/2 : ℚ)⟩ := by
      unfold Stack.firstResult
      rw [h1]
      rfl
    unfold Stack.detect
    rw [hfr]
    norm_num
  · unfold Stack.detect_go
    simp [Stack.c2Project, Stack.emptyProject, Stack.goFwName]
    norm_num

/-- C2 as amended: the first detector in the sequence to return any
result (of whatever confidence) determines the outcome: the verdict is
that result when its confidence exceeds the 0.5 floor, and None
otherwise - later detectors are never consulted once an earlier one has
returned a result, even a result at or below the floor. -/
theorem c2_amended_first_match (p : Stack.SProject) (r : Stack.DetectionResult)
    (h : Stack.firstSome Stack.detectors p = some r) :
    (1/2 < r.confidence → Stack.detect p = some r) ∧
    (r.confidence ≤ 1/2 → Stack.detect p = none) := by
  rw [firstSome_eq_firstResult] at h
  unfold Stack.detect
  rw [h]
  dsimp only
  constructor
  · intro hc
    rw [if_pos hc]
  · intro hc
    rw [if_neg (not_lt.mpr hc)]

/-- Witness for C2 as amended: a pure Gin/Go project is detected by the
Go detector at confidence 0.85, above the floor. -/
theorem c2_amended_first_match_witness :
    Stack.detect Stack.goGinProject = some ⟨"go-gin", none, "go", 17/20⟩ := by
  have hgo : Stack.detect_go Stack.goGinProject =
      some ⟨"go-gin", none, "go", 17/20⟩ := by
    unfold Stack.detect_go
    simp [Stack.goGinProject, Stack.emptyProject, Stack.goFwName]
    norm_num
  have h : Stack.firstSome Stack.detectors Stack.goGinProject =
      some ⟨"go-gin", none, "go", 17/20⟩ := by
    rw [firstSome_eq_firstResult]
    unfold Stack.firstResult
    rw [show Stack.detect_nextjs Stack.goGinProject = none from rfl,
      show Stack.detect_react Stack.goGinProject = none from rfl,
      show Stack.detect_vue Stack.goGinProject = none from rfl,
      show Stack.detect_fastapi Stack.goGinProject = none from rfl,
      show Stack.detect_django Stack.goGinProject = none from rfl,
      show Stack.detect_flask Stack.goGinProject = none from rfl,
      show Stack.detect_vanilla_php_web Stack.goGinProject = none from rfl,
      show Stack.detect_python_ml Stack.goGinProject = none from rfl,
      show Stack.detect_ios_swift Stack.goGinProject = none from rfl,
      hgo]
    rfl
  exact (c2_amended_first_match Stack.goGinProject ⟨"go-gin", none, "go", 17/20⟩ h).1
    (by norm_num)

/-- C8, counterexample: a root with ten raw PHP files and a routed
index.php is classified as vanilla-php-web at 0.65 when composer.json is
absent, but an unparseable composer.json aborts the vanilla detector and
overall detection returns None - so the malformed manifest is NOT
handled as if the file were absent. -/
theorem c8_counterexample :
    Stack.detect Stack.phpInvalidComposerProject = none ∧
    Stack.detect Stack.phpNoComposerProject =
      some ⟨"vanilla-php-web", none, "php", 13/20⟩ ∧
    Stack.phpNoComposerProject =
      { Stack.phpInvalidComposerProject with composerJson := none } := by
  refine ⟨rfl, ?_, rfl⟩
  have hv : Stack.detect_vanilla_php_web Stack.phpNoComposerProject =
      some ⟨"vanilla-php-web", none, "php", 13/20⟩ := by
    unfold Stack.detect_vanilla_php_web
    simp [Stack.vanillaComposerStage, Stack.vanillaPhpFilesPart,
      Stack.phpNoComposerProject, Stack.phpInvalidComposerProject,
      Stack.emptyProject, Stack.phpMvcBonus]
    norm_num
  have hfr : Stack.firstResult Stack.phpNoComposerProject =
      some ⟨"vanilla-php-web", none, "php", 13/20⟩ := by
    unfold Stack.firstResult
    rw [show Stack.detect_nextjs Stack.phpNoComposerProject = none from rfl,
      show Stack.detect_react Stack.phpNoComposerProject = none from rfl,
      show Stack.detect_vue Stack.phpNoComposerProject = none from rfl,
      show Stack.detect_fastapi Stack.phpNoComposerProject = none from rfl,
      show Stack.detect_django Stack.phpNoComposerProject = none from rfl,
      show Stack.detect_flask Stack.phpNoComposerProject = none from rfl,
      hv]
    rfl
  unfold Stack.detect
  rw [hfr]
  norm_num

/-- C8 as amended: an unparseable manifest never propagates an exception
and aborts exactly the detector that was parsing it; for detectors whose
first act is the parse (e.g. Next.js on package.json) this coincides
with absence of the file, but for the vanilla-PHP detector it does not:
an absent composer.json lets the detector proceed on raw-PHP evidence,
while an unparseable one makes it abstain outright. -/
theorem c8_amended_malformed_manifest :
    (∀ p : Stack.SProject, p.composerJson = some none →
      Stack.detect_vanilla_php_web p = none) ∧
    (∀ p : Stack.SProject,
      Stack.detect_nextjs { p with packageJson := some none } = none ∧
      Stack.detect_nextjs { p with packageJson := none } = none) := by
  constructor
  · intro p h
    simp [Stack.detect_vanilla_php_web, Stack.vanillaComposerStage, h]
  · intro p
    exact ⟨rfl, rfl⟩

/-- Witness for C8 as amended, at the concrete invalid-composer project. -/
theorem c8_amended_malformed_manifest_witness :
    Stack.detect_vanilla_php_web Stack.phpInvalidComposerProject = none ∧
    Stack.detect_nextjs
      { Stack.phpInvalidComposerProject with packageJson := some none } = none :=
  ⟨c8_amended_malformed_manifest.1 Stack.phpInvalidComposerProject rfl,
   (c8_amended_malformed_manifest.2 Stack.phpInvalidComposerProject).1⟩

/-- Facts about `_analyze_version` outputs: name, weight and confidence
bounds. -/
theorem analyze_version_facts (v : AR.Version) :
    (AR.analyze_version v).signal_name = "version_number" ∧
    (AR.analyze_version v).weight = 3/10 ∧
    0 ≤ (AR.analyze_version v).confidence ∧
    (AR.analyze_version v).confidence ≤ 1 := by
  rcases v with ⟨M, m, pt⟩ | _
  · unfold AR.analyze_version
    dsimp only
    split_ifs <;> exact ⟨rfl, rfl, by norm_num, by norm_num⟩
  · exact ⟨rfl, rfl, by norm_num [AR.analyze_version], by norm_num [AR.analyze_version]⟩

/-- Facts about fired version-number signals. -/
theorem version_signal_facts (p : AR.Project) (s : AR.SignalResult)
    (h : AR.detect_version_number p = some s) :
    s.signal_name = "version_number" ∧ s.weight = 3/10 ∧
    0 ≤ s.confidence ∧ s.confidence ≤ 1 := by
  unfold AR.detect_version_number at h
  split at h
  · injection h with h'
    subst h'
    exact analyze_version_facts _
  · split at h
    · injection h with h'
      subst h'
      exact analyze_version_facts _
    · simp at h

/-- Facts about fired git-history signals. -/
theorem git_signal_facts (p : AR.Project) (s : AR.SignalResult)
    (h : AR.detect_git_history p = some s) :
    s.signal_name = "git_history" ∧ s.weight = 1/5 ∧
    0 ≤ s.confidence ∧ s.confidence ≤ 1 := by
  unfold AR.detect_git_history at h
  split at h
  · injection h with h'
    subst h'
    exact ⟨rfl, rfl, by norm_num, by norm_num⟩
  · simp at h
  · injection h with h'
    subst h'
    refine ⟨rfl, rfl, ?_, ?_⟩ <;> dsimp only <;> split_ifs <;> norm_num

/-- Facts about the always-firing test-coverage signal. -/
theorem test_signal_facts (p : AR.Project) :
    (AR.detect_test_coverage p).signal_name = "test_coverage" ∧
    (AR.detect_test_coverage p).weight = 3/20 ∧
    0 ≤ (AR.detect_test_coverage p).confidence ∧
    (AR.detect_test_coverage p).confidence ≤ 1 := by
  unfold AR.detect_test_coverage
  refine ⟨rfl, rfl, ?_, ?_⟩
  · dsimp only
    refine le_min ?_ zero_le_one
    split_ifs <;> norm_num
  · exact min_le_right _ _

/-- Facts about the always-firing CI/CD signal. -/
theorem ci_signal_facts (p : AR.Project) :
    (AR.detect_ci_cd p).signal_name = "ci_cd" ∧
    (AR.detect_ci_cd p).weight = 3/20 ∧
    0 ≤ (AR.detect_ci_cd p).confidence ∧
    (AR.detect_ci_cd p).confidence ≤ 1 := by
  unfold AR.detect_ci_cd
  split_ifs <;> exact ⟨rfl, rfl, by norm_num, by norm_num⟩

/-- Facts about the always-firing documentation signal. -/
theorem doc_signal_facts (p : AR.Project) :
    (AR.detect_documentation p).signal_name = "documentation" ∧
    (AR.detect_documentation p).weight = 1/10 ∧
    0 ≤ (AR.detect_documentation p).confidence ∧
    (AR.detect_documentation p).confidence ≤ 1 := by
  unfold AR.detect_documentation
  split_ifs <;> exact ⟨rfl, rfl, by norm_num, by norm_num⟩

/-- Facts about the always-firing code-structure signal. -/
theorem structure_signal_facts (p : AR.Project) :
    (AR.detect_code_structure p).signal_name = "code_structure" ∧
    (AR.detect_code_structure p).weight = 1/10 ∧
    0 ≤ (AR.detect_code_structure p).confidence ∧
    (AR.detect_code_structure p).confidence ≤ 1 := by
  unfold AR.detect_code_structure
  split_ifs <;> exact ⟨rfl, rfl, by norm_num, by norm_num⟩

/-- Every signal gathered by the weighted path has a non-override name, a
weight of at least 0.1, and a confidence in the unit interval. -/
theorem signalList_facts (p : AR.Project) (s : AR.SignalResult)
    (hs : s ∈ AR.signalList p) :
    s.signal_name ≠ "user_config" ∧ 1/10 ≤ s.weight ∧
    0 ≤ s.confidence ∧ s.confidence ≤ 1 := by
  unfold AR.signalList at hs
  rw [List.mem_filterMap] at hs
  obtain ⟨a, ha, hid⟩ := hs
  simp only [List.mem_cons, List.not_mem_nil, or_false] at ha
  have hid' : a = some s := hid
  rcases ha with ha | ha | ha | ha | ha | ha
  all_goals rw [ha] at hid'
  · obtain ⟨h1, h2, h3, h4⟩ := version_signal_facts p s hid'
    exact ⟨by rw [h1]; simp, by rw [h2]; norm_num, h3, h4⟩
  · obtain ⟨h1, h2, h3, h4⟩ := git_signal_facts p s hid'
    exact ⟨by rw [h1]; simp, by rw [h2]; norm_num, h3, h4⟩
  · have heq : AR.detect_test_coverage p = s := Option.some_inj.mp hid'
    obtain ⟨h1, h2, h3, h4⟩ := test_signal_facts p
    rw [heq] at h1 h2 h3 h4
    exact ⟨by rw [h1]; simp, by rw [h2]; norm_num, h3, h4⟩
  · have heq : AR.detect_ci_cd p = s := Option.some_inj.mp hid'
    obtain ⟨h1, h2, h3, h4⟩ := ci_signal_facts p
    rw [heq] at h1 h2 h3 h4
    exact ⟨by rw [h1]; simp, by rw [h2]; norm_num, h3, h4⟩
  · have heq : AR.detect_documentation p = s := Option.some_inj.mp hid'
    obtain ⟨h1, h2, h3, h4⟩ := doc_signal_facts p
    rw [heq] at h1 h2 h3 h4
    exact ⟨by rw [h1]; simp, by rw [h2], h3, h4⟩
  · have heq : AR.detect_code_structure p = s := Option.some_inj.mp hid'
    obtain ⟨h1, h2, h3, h4⟩ := structure_signal_facts p
    rw [heq] at h1 h2 h3 h4
    exact ⟨by rw [h1]; simp, by rw [h2], h3, h4⟩

/-- The per-phase weighted sum over all signals equals the sum of
confidence x weight over the signals voting for that phase. -/
theorem sum_weighted_eq_filter (l : List AR.SignalResult) (ph : Phase) :
    (l.map fun s => AR.weighted_score s ph).sum =
    ((l.filter fun s => s.detected_phase = ph).map
      fun s => s.confidence * s.weight).sum := by
  induction l with
  | nil => rfl
  | cons a t ih =>
    rw [List.map_cons, List.sum_cons, List.filter_cons]
    by_cases hph : a.detected_phase = ph
    · rw [if_pos (by simpa using hph), List.map_cons, List.sum_cons, ih]
      congr 1
      simp only [AR.weighted_score]
      rw [if_pos hph.symm]
    · rw [if_neg (by simpa using hph), ih]
      simp only [AR.weighted_score]
      rw [if_neg fun hh => hph hh.symm, zero_add]

/-- Non-override signals survive the user-config filter unchanged. -/
theorem filter_no_user (l : List AR.SignalResult)
    (h : ∀ s ∈ l, s.signal_name ≠ "user_config") :
    (l.filter fun s => s.signal_name ≠ "user_config") = l := by
  rw [List.filter_eq_self]
  intro a ha
  simpa using h a ha

/-- A nonempty gathered signal list has positive total weight. -/
theorem totalWeight_pos (p : AR.Project) (h : AR.signalList p ≠ []) :
    0 < AR.totalWeight (AR.signalList p) := by
  unfold AR.totalWeight
  rw [filter_no_user _ fun s hs => (signalList_facts p s hs).1]
  apply List.sum_pos
  · intro x hx
    rw [List.mem_map] at hx
    obtain ⟨s, hs, hxe⟩ := hx
    have hw := (signalList_facts p s hs).2.1
    rw [← hxe]
    linarith
  · simpa using h

/-- The aggregation tail of `detect` computes, for every label, exactly
the specification's normalized weighted score, and returns the arg-max. -/
theorem aggregate_claimed (p : AR.Project) (hne : AR.signalList p ≠ []) :
    AR.aggregate (AR.signalList p) =
      ⟨winner (AR.claimedLabelScore (AR.signalList p)),
       AR.claimedLabelScore (AR.signalList p)
         (winner (AR.claimedLabelScore (AR.signalList p))),
       AR.signalList p, none⟩ := by
  have hfilter := filter_no_user (AR.signalList p)
    fun s hs => (signalList_facts p s hs).1
  have htw : 0 < AR.totalWeight (AR.signalList p) := totalWeight_pos p hne
  have hfun : (fun ph => if 0 < AR.totalWeight (AR.signalList p) then
      AR.phaseScore (AR.signalList p) ph / AR.totalWeight (AR.signalList p)
      else AR.phaseScore (AR.signalList p) ph) =
      AR.claimedLabelScore (AR.signalList p) := by
    funext ph
    rw [if_pos htw]
    unfold AR.phaseScore AR.totalWeight AR.claimedLabelScore
    rw [hfilter, sum_weighted_eq_filter]
  unfold AR.aggregate
  rw [if_neg hne]
  dsimp only
  rw [hfun]
  congr 1
  exact congrFun hfun _

/-- Each label score of the project-analyzer detector equals the clamp at
1.0 of three times the specification-style normalized score: the label's
own weighted sum is used directly, with no division by the total weight
of all fired signals. -/
theorem pa_score_eq (p : PA.Project) (ph : Phase) :
    PA.labelScore p ph = min (3 * PA.claimedLabelScorePA p ph) 1 := by
  have hpt : ∀ (s : List (String × ℚ)) (nw : String × ℚ),
      (match alookup s nw.1 with
       | some v => v * nw.2
       | none => 0) = (alookup s nw.1).getD 0 * nw.2 := by
    intro s nw
    cases alookup s nw.1
    · simp
    · simp
  have h3 : (3 : ℚ) ≠ 0 := by norm_num
  have hden : ((PA.PROTOTYPE_SIGNALS.map fun nw => nw.2).sum +
      (PA.MVP_SIGNALS.map fun nw => nw.2).sum +
      (PA.PRODUCTION_SIGNALS.map fun nw => nw.2).sum) = 3 := by
    norm_num [PA.PROTOTYPE_SIGNALS, PA.MVP_SIGNALS, PA.PRODUCTION_SIGNALS]
  cases ph with
  | prototype =>
    show PA.calculate_prototype_score p = _
    unfold PA.calculate_prototype_score PA.calculateScore PA.claimedLabelScorePA
    dsimp only
    rw [hden, mul_comm, div_mul_cancel₀ _ h3]
    simp only [hpt]
  | mvp =>
    show PA.calculate_mvp_score p = _
    unfold PA.calculate_mvp_score PA.calculateScore PA.claimedLabelScorePA
    dsimp only
    rw [hden, mul_comm, div_mul_cancel₀ _ h3]
    simp only [hpt]
  | production =>
    show PA.calculate_production_score p = _
    unfold PA.calculate_production_score PA.calculateScore PA.claimedLabelScorePA
    dsimp only
    rw [hden, mul_comm, div_mul_cancel₀ _ h3]
    simp only [hpt]

/-- C3 as amended: in the adaptive-review implementation the claim holds
as stated - with no user override and at least one fired signal, every
label's score is the sum of confidence x weight over the signals voting
for it divided by the sum of the weights of all fired signals, the
verdict is the arg-max, and the confidence is the winning normalized
score.  In the project-analyzer implementation the verdict is the
arg-max of the three per-label scores and the confidence is the winning
score, but each label's score is the clamped weighted sum over that
label's own signal battery (equivalently `min (3 * normalized) 1`), with
no division by the summed weight 3.0 of all fired signals. -/
theorem c3_weighted_aggregation :
    (∀ p : AR.Project, AR.detect_user_config p = none → AR.signalList p ≠ [] →
      (AR.detect p).phase = winner (AR.claimedLabelScore (AR.signalList p)) ∧
      (AR.detect p).confidence =
        AR.claimedLabelScore (AR.signalList p) ((AR.detect p).phase) ∧
      ∀ ph, AR.claimedLabelScore (AR.signalList p) ph ≤ (AR.detect p).confidence) ∧
    (∀ p : PA.Project,
      (PA.detect p).phase = winner (PA.labelScore p) ∧
      (PA.detect p).confidence = PA.labelScore p ((PA.detect p).phase) ∧
      (∀ ph, PA.labelScore p ph ≤ (PA.detect p).confidence) ∧
      ∀ ph, PA.labelScore p ph = min (3 * PA.claimedLabelScorePA p ph) 1) := by
  constructor
  · intro p hu hne
    have hd : AR.detect p = AR.aggregate (AR.signalList p) := by
      unfold AR.detect
      rw [hu]
    rw [hd, aggregate_claimed p hne]
    exact ⟨rfl, rfl, fun ph => winner_is_max _ ph⟩
  · intro p
    exact ⟨rfl, rfl, fun ph => winner_is_max (PA.labelScore p) ph,
      fun ph => pa_score_eq p ph⟩

/-- C3, counterexample: on an empty project the project-analyzer
implementation returns prototype with confidence 0.65, whereas the
claimed formula - prototype score divided by the summed weight (3.0) of
all fired signals - yields 13/60; the two disagree, so the claim fails
for the second phase-detection implementation. -/
theorem c3_counterexample :
    (PA.detect PA.emptyProject).phase = Phase.prototype ∧
    (PA.detect PA.emptyProject).confidence = 13/20 ∧
    PA.claimedLabelScorePA PA.emptyProject Phase.prototype = 13/60 ∧
    ((13 : ℚ)/20) ≠ 13/60 := by
  have h1 : PA.labelScore PA.emptyProject .prototype = 13/20 := by
    simp [PA.labelScore, PA.calculate_prototype_score, PA.calculateScore,
      PA.get_prototype_signals, PA.PROTOTYPE_SIGNALS, PA.emptyProject, alookup]
    norm_num [min_def]
  have h2 : PA.labelScore PA.emptyProject .mvp = 0 := by
    simp [PA.labelScore, PA.calculate_mvp_score, PA.calculateScore,
      PA.get_mvp_signals, PA.MVP_SIGNALS, PA.emptyProject, alookup]
  have h3 : PA.labelScore PA.emptyProject .production = 0 := by
    simp [PA.labelScore, PA.calculate_production_score, PA.calculateScore,
      PA.get_production_signals, PA.PRODUCTION_SIGNALS, PA.emptyProject, alookup]
  have hwin : winner (PA.labelScore PA.emptyProject) = .prototype := by
    unfold winner
    rw [h1, h2, h3]
    norm_num
  refine ⟨hwin, ?_, ?_, by norm_num⟩
  · show PA.labelScore PA.emptyProject (winner (PA.labelScore PA.emptyProject)) =
      13/20
    rw [hwin, h1]
  · simp [PA.claimedLabelScorePA, PA.get_prototype_signals,
      PA.PROTOTYPE_SIGNALS, PA.MVP_SIGNALS, PA.PRODUCTION_SIGNALS,
      PA.emptyProject, alookup]
    norm_num

/-- Witness for C3 as amended: the adaptive-review detector on a project
with a 0.1.0 version, no git repository and no other markers. -/
theorem c3_weighted_aggregation_witness :
    (AR.detect AR.noOverrideProject).phase =
      winner (AR.claimedLabelScore (AR.signalList AR.noOverrideProject)) ∧
    (AR.detect AR.noOverrideProject).confidence =
      AR.claimedLabelScore (AR.signalList AR.noOverrideProject)
        ((AR.detect AR.noOverrideProject).phase) ∧
    ∀ ph, AR.claimedLabelScore (AR.signalList AR.noOverrideProject) ph ≤
      (AR.detect AR.noOverrideProject).confidence :=
  c3_weighted_aggregation.1 AR.noOverrideProject rfl (by
    simp [AR.signalList, AR.noOverrideProject, AR.detect_version_number,
      AR.detect_git_history])

/-- Bounds of a confidence clamped as `min c 1`. -/
theorem min_one_bounds {c : ℚ} (hc : 0 ≤ c) : 0 ≤ min c 1 ∧ min c 1 ≤ 1 :=
  ⟨le_min hc zero_le_one, min_le_right _ _⟩

/-- Bounds of a confidence clamped as `min 1 c`. -/
theorem one_min_bounds {c : ℚ} (hc : 0 ≤ c) : 0 ≤ min 1 c ∧ min 1 c ≤ 1 :=
  ⟨le_min zero_le_one hc, min_le_left _ _⟩

/-- Confidence bounds of the Next.js detector. -/
theorem detect_nextjs_bounds (p : Stack.SProject) (r : Stack.DetectionResult)
    (h : Stack.detect_nextjs p = some r) :
    0 ≤ r.confidence ∧ r.confidence ≤ 1 := by
  unfold Stack.detect_nextjs at h
  split at h
  · simp at h
  · simp at h
  · split at h
    · simp at h
    · injection h with h'
      subst h'
      dsimp only
      refine min_one_bounds ?_
      have t1 : (0:ℚ) ≤ if p.hasNextConfig then 3/10 else 0 :=
        q_ite_nonneg (by norm_num) le_rfl
      have t2 : (0:ℚ) ≤ if p.hasAppDir then 2/10 else
          if p.hasPagesDir then 2/10 else 0 :=
        q_ite_nonneg (by norm_num) (q_ite_nonneg (by norm_num) le_rfl)
      linarith

/-- Inversion of a guard returning `none` on its positive branch. -/
theorem ite_none_some {α : Type} {c : Prop} [Decidable c] {a : Option α} {r : α}
    (h : (if c then none else a) = some r) : ¬ c ∧ a = some r := by
  by_cases hc : c
  · rw [if_pos hc] at h
    exact absurd h (by simp)
  · rw [if_neg hc] at h
    exact ⟨hc, h⟩

/-- Confidence bounds of the React detector. -/
theorem detect_react_bounds (p : Stack.SProject) (r : Stack.DetectionResult)
    (h : Stack.detect_react p = some r) :
    0 ≤ r.confidence ∧ r.confidence ≤ 1 := by
  unfold Stack.detect_react at h
  split at h
  · simp at h
  · simp at h
  · rename_i pkg heq
    dsimp only at h
    obtain ⟨hcond, h⟩ := ite_none_some h
    injection h with h'
    subst h'
    dsimp only
    refine min_one_bounds ?_
    have t1 : (0:ℚ) ≤ if (alookup pkg.deps "vite").isSome then 1/5 else
        if (alookup pkg.deps "react-scripts").isSome then 1/5 else 0 :=
      q_ite_nonneg (by norm_num) (q_ite_nonneg (by norm_num) le_rfl)
    linarith

/-- Confidence bounds of the Vue detector. -/
theorem detect_vue_bounds (p : Stack.SProject) (r : Stack.DetectionResult)
    (h : Stack.detect_vue p = some r) :
    0 ≤ r.confidence ∧ r.confidence ≤ 1 := by
  unfold Stack.detect_vue at h
  split at h
  · simp at h
  · simp at h
  · rename_i pkg heq
    dsimp only at h
    obtain ⟨hcond, h⟩ := ite_none_some h
    injection h with h'
    subst h'
    dsimp only
    refine min_one_bounds ?_
    have t1 : (0:ℚ) ≤ if (alookup pkg.deps "vite").isSome then 1/5 else 0 :=
      q_ite_nonneg (by norm_num) le_rfl
    linarith

/-- Confidence bounds of the FastAPI detector. -/
theorem detect_fastapi_bounds (p : Stack.SProject) (r : Stack.DetectionResult)
    (h : Stack.detect_fastapi p = some r) :
    0 ≤ r.confidence ∧ r.confidence ≤ 1 := by
  unfold Stack.detect_fastapi at h
  obtain ⟨hg, h⟩ := ite_none_some h
  dsimp only at h
  obtain ⟨hgate, h⟩ := ite_none_some h
  injection h with h'
  subst h'
  dsimp only
  exact min_one_bounds (by linarith [not_lt.mp hgate])

/-- Confidence bounds of the Django detector (constant 0.8, no clamp). -/
theorem detect_django_bounds (p : Stack.SProject) (r : Stack.DetectionResult)
    (h : Stack.detect_django p = some r) :
    0 ≤ r.confidence ∧ r.confidence ≤ 1 := by
  unfold Stack.detect_django at h
  split at h
  · injection h with h'
    subst h'
    norm_num
  · simp at h

/-- Confidence bounds of the Flask detector. -/
theorem detect_flask_bounds (p : Stack.SProject) (r : Stack.DetectionResult)
    (h : Stack.detect_flask p = some r) :
    0 ≤ r.confidence ∧ r.confidence ≤ 1 := by
  unfold Stack.detect_flask at h
  split at h
  · simp at h
  · simp at h
  · split at h
    · injection h with h'
      subst h'
      norm_num
    · simp at h

/-- Confidence bounds of the Go detector. -/
theorem detect_go_bounds (p : Stack.SProject) (r : Stack.DetectionResult)
    (h : Stack.detect_go p = some r) :
    0 ≤ r.confidence ∧ r.confidence ≤ 1 := by
  unfold Stack.detect_go at h
  split at h
  · simp at h
  · rename_i info heq
    injection h with h'
    subst h'
    dsimp only
    refine min_one_bounds ?_
    have tcnt : (0:ℚ) ≤ (1/20) * p.goFileMatches :=
      mul_nonneg (by norm_num) (Nat.cast_nonneg _)
    have tdock : (0:ℚ) ≤ if p.hasDockerfile then 1/20 else 0 :=
      q_ite_nonneg (by norm_num) le_rfl
    cases info with
    | none =>
      dsimp only
      linarith
    | some i =>
      have torm : (0:ℚ) ≤ if i.hasOrm then 1/20 else 0 :=
        q_ite_nonneg (by norm_num) le_rfl
      rcases hw : i.webFramework with _ | fw <;> dsimp only <;> rw [hw] <;>
        dsimp only <;> linarith

/-- Confidence bounds of the Flutter detector. -/
theorem detect_flutter_bounds (p : Stack.SProject) (r : Stack.DetectionResult)
    (h : Stack.detect_flutter p = some r) :
    0 ≤ r.confidence ∧ r.confidence ≤ 1 := by
  unfold Stack.detect_flutter at h
  cases hps : p.pubspec with
  | none =>
    rw [hps] at h
    simp at h
  | some outcome =>
    rw [hps] at h
    cases outcome <;> dsimp only at h
    case parsedEmpty => simp at h
    case parsedNoFlutter => simp at h
    case yamlErrorNoRef => simp at h
    case yamlErrorUnreadable => simp at h
    case parsedFlutter hasSdkKey =>
      obtain ⟨hgate, h⟩ := ite_none_some h
      injection h with h'
      subst h'
      dsimp only
      exact min_one_bounds (by linarith [not_lt.mp hgate])
    case yamlErrorFlutterRef =>
      obtain ⟨hgate, h⟩ := ite_none_some h
      injection h with h'
      subst h'
      dsimp only
      exact min_one_bounds (by linarith [not_lt.mp hgate])

/-- Confidence bounds of the vanilla-PHP detector (which both subtracts
0.1 for a modern JS framework and enforces the 0.3 floor). -/
theorem detect_vanilla_php_bounds (p : Stack.SProject) (r : Stack.DetectionResult)
    (h : Stack.detect_vanilla_php_web p = some r) :
    0 ≤ r.confidence ∧ r.confidence ≤ 1 := by
  unfold Stack.detect_vanilla_php_web at h
  cases hs : Stack.vanillaComposerStage p with
  | none =>
    rw [hs] at h
    simp at h
  | some sv =>
    rw [hs] at h
    dsimp only at h
    cases hp : Stack.vanillaPhpFilesPart p with
    | none =>
      rw [hp] at h
      simp at h
    | some cPhp =>
      rw [hp] at h
      dsimp only at h
      obtain ⟨hgate, h⟩ := ite_none_some h
      injection h with h'
      subst h'
      dsimp only
      exact one_min_bounds (by linarith [not_lt.mp hgate])

/-- Confidence bounds of the Python-ML detector. -/
theorem detect_python_ml_bounds (p : Stack.SProject) (r : Stack.DetectionResult)
    (h : Stack.detect_python_ml p = some r) :
    0 ≤ r.confidence ∧ r.confidence ≤ 1 := by
  unfold Stack.detect_python_ml at h
  obtain ⟨hg, h⟩ := ite_none_some h
  dsimp only at h
  obtain ⟨hgate, h⟩ := ite_none_some h
  injection h with h'
  subst h'
  dsimp only
  exact min_one_bounds (by linarith [not_lt.mp hgate])

/-- Confidence bounds of the iOS Swift detector. -/
theorem detect_ios_swift_bounds (p : Stack.SProject) (r : Stack.DetectionResult)
    (h : Stack.detect_ios_swift p = some r) :
    0 ≤ r.confidence ∧ r.confidence ≤ 1 := by
  unfold Stack.detect_ios_swift at h
  dsimp only at h
  obtain ⟨h1, h⟩ := ite_none_some h
  obtain ⟨h2, h⟩ := ite_none_some h
  obtain ⟨hgate, h⟩ := ite_none_some h
  injection h with h'
  subst h'
  dsimp only
  exact min_one_bounds (by linarith [not_lt.mp hgate])

/-- A result of the detection chain comes from one of the eleven
detectors. -/
theorem firstResult_eq_detector (p : Stack.SProject) (r : Stack.DetectionResult)
    (h : Stack.firstResult p = some r) :
    Stack.detect_nextjs p = some r ∨ Stack.detect_react p = some r ∨
    Stack.detect_vue p = some r ∨ Stack.detect_fastapi p = some r ∨
    Stack.detect_django p = some r ∨ Stack.detect_flask p = some r ∨
    Stack.detect_vanilla_php_web p = some r ∨
    Stack.detect_python_ml p = some r ∨ Stack.detect_ios_swift p = some r ∨
    Stack.detect_go p = some r ∨ Stack.detect_flutter p = some r := by
  unfold Stack.firstResult at h
  cases h1 : Stack.detect_nextjs p with
  | some r1 =>
    rw [h1] at h
    simp only [Option.orElse] at h
    injection h with h'
    subst h'
    exact Or.inl rfl
  | none =>
  rw [h1] at h
  simp only [Option.orElse] at h
  cases h2 : Stack.detect_react p with
  | some r2 =>
    rw [h2] at h
    simp only [Option.orElse] at h
    injection h with h'
    subst h'
    exact Or.inr (Or.inl rfl)
  | none =>
  rw [h2] at h
  simp only [Option.orElse] at h
  cases h3 : Stack.detect_vue p with
  | some r3 =>
    rw [h3] at h
    simp only [Option.orElse] at h
    injection h with h'
    subst h'
    exact Or.inr (Or.inr (Or.inl rfl))
  | none =>
  rw [h3] at h
  simp only [Option.orElse] at h
  cases h4 : Stack.detect_fastapi p with
  | some r4 =>
    rw [h4] at h
    simp only [Option.orElse] at h
    injection h with h'
    subst h'
    exact Or.inr (Or.inr (Or.inr (Or.inl rfl)))
  | none =>
  rw [h4] at h
  simp only [Option.orElse] at h
  cases h5 : Stack.detect_django p with
  | some r5 =>
    rw [h5] at h
    simp only [Option.orElse] at h
    injection h with h'
    subst h'
    exact Or.inr (Or.inr (Or.inr (Or.inr (Or.inl rfl))))
  | none =>
  rw [h5] at h
  simp only [Option.orElse] at h
  cases h6 : Stack.detect_flask p with
  | some r6 =>
    rw [h6] at h
    simp only [Option.orElse] at h
    injection h with h'
    subst h'
    exact Or.inr (Or.inr (Or.inr (Or.inr (Or.inr (Or.inl rfl)))))
  | none =>
  rw [h6] at h
  simp only [Option.orElse] at h
  cases h7 : Stack.detect_vanilla_php_web p with
  | some r7 =>
    rw [h7] at h
    simp only [Option.orElse] at h
    injection h with h'
    subst h'
    exact Or.inr (Or.inr (Or.inr (Or.inr (Or.inr (Or.inr (Or.inl rfl))))))
  | none =>
  rw [h7] at h
  simp only [Option.orElse] at h
  cases h8 : Stack.detect_python_ml p with
  | some r8 =>
    rw [h8] at h
    simp only [Option.orElse] at h
    injection h with h'
    subst h'
    exact Or.inr (Or.inr (Or.inr (Or.inr (Or.inr (Or.inr (Or.inr (Or.inl rfl)))))))
  | none =>
  rw [h8] at h
  simp only [Option.orElse] at h
  cases h9 : Stack.detect_ios_swift p with
  | some r9 =>
    rw [h9] at h
    simp only [Option.orElse] at h
    injection h with h'
    subst h'
    exact Or.inr (Or.inr (Or.inr (Or.inr (Or.inr (Or.inr (Or.inr (Or.inr
      (Or.inl rfl))))))))
  | none =>
  rw [h9] at h
  simp only [Option.orElse] at h
  cases h10 : Stack.detect_go p with
  | some r10 =>
    rw [h10] at h
    simp only [Option.orElse] at h
    injection h with h'
    subst h'
    exact Or.inr (Or.inr (Or.inr (Or.inr (Or.inr (Or.inr (Or.inr (Or.inr
      (Or.inr (Or.inl rfl)))))))))
  | none =>
  rw [h10] at h
  simp only [Option.orElse] at h
  exact Or.inr (Or.inr (Or.inr (Or.inr (Or.inr (Or.inr (Or.inr (Or.inr
    (Or.inr (Or.inr h)))))))))

/-- Confidence bounds of the full stack-detection entry. -/
theorem stack_detect_bounds (p : Stack.SProject) (r : Stack.DetectionResult)
    (h : Stack.detect p = some r) :
    0 ≤ r.confidence ∧ r.confidence ≤ 1 := by
  unfold Stack.detect at h
  cases hf : Stack.firstResult p with
  | none =>
    rw [hf] at h
    simp at h
  | some r0 =>
    rw [hf] at h
    dsimp only at h
    split at h
    · injection h with h'
      subst h'
      rcases firstResult_eq_detector p r0 hf with
        h1 | h1 | h1 | h1 | h1 | h1 | h1 | h1 | h1 | h1 | h1
      exacts [detect_nextjs_bounds p r0 h1, detect_react_bounds p r0 h1,
        detect_vue_bounds p r0 h1, detect_fastapi_bounds p r0 h1,
        detect_django_bounds p r0 h1, detect_flask_bounds p r0 h1,
        detect_vanilla_php_bounds p r0 h1, detect_python_ml_bounds p r0 h1,
        detect_ios_swift_bounds p r0 h1, detect_go_bounds p r0 h1,
        detect_flutter_bounds p r0 h1]
    · simp at h

/-- A conditional bounded above in both branches. -/
theorem q_ite_le {c : Prop} [Decidable c] {a b d : ℚ} (ha : a ≤ d) (hb : b ≤ d) :
    (if c then a else b) ≤ d := by
  split <;> assumption

/-- A fired user-config signal always carries confidence 1. -/
theorem user_config_inv (p : AR.Project) (u : AR.SignalResult)
    (h : AR.detect_user_config p = some u) : u.confidence = 1 := by
  unfold AR.detect_user_config at h
  split at h
  · simp at h
  · simp at h
  · split at h
    · simp at h
    · injection h with h'
      subst h'
      rfl

/-- The signal list attached to an aggregation result is either the
gathered list or empty. -/
theorem aggregate_signals (sigs : List AR.SignalResult) :
    (AR.aggregate sigs).signals = sigs ∨ (AR.aggregate sigs).signals = [] := by
  unfold AR.aggregate
  split
  · exact Or.inr rfl
  · exact Or.inl rfl

/-- Confidence bounds of the aggregation tail, for signal lists whose
members have unit-interval confidences and nonnegative weights. -/
theorem aggregate_conf_bounds (sigs : List AR.SignalResult)
    (hfacts : ∀ s ∈ sigs, 0 ≤ s.confidence ∧ s.confidence ≤ 1 ∧ 0 ≤ s.weight) :
    0 ≤ (AR.aggregate sigs).confidence ∧ (AR.aggregate sigs).confidence ≤ 1 := by
  have hps_nonneg : ∀ ph, 0 ≤ AR.phaseScore sigs ph := by
    intro ph
    unfold AR.phaseScore
    apply List.sum_nonneg
    intro x hx
    rw [List.mem_map] at hx
    obtain ⟨s, hs, hxe⟩ := hx
    obtain ⟨hc0, hc1, hw0⟩ := hfacts s (List.mem_of_mem_filter hs)
    rw [← hxe]
    exact q_ite_nonneg (mul_nonneg hc0 hw0) le_rfl
  have htw_nonneg : 0 ≤ AR.totalWeight sigs := by
    unfold AR.totalWeight
    apply List.sum_nonneg
    intro x hx
    rw [List.mem_map] at hx
    obtain ⟨s, hs, hxe⟩ := hx
    rw [← hxe]
    exact (hfacts s (List.mem_of_mem_filter hs)).2.2
  have hps_le : ∀ ph, AR.phaseScore sigs ph ≤ AR.totalWeight sigs := by
    intro ph
    unfold AR.phaseScore AR.totalWeight
    apply List.sum_le_sum
    intro s hs
    obtain ⟨hc0, hc1, hw0⟩ := hfacts s (List.mem_of_mem_filter hs)
    exact q_ite_le (mul_le_of_le_one_left hw0 hc1) hw0
  unfold AR.aggregate
  split
  · norm_num
  · dsimp only
    rcases lt_or_le 0 (AR.totalWeight sigs) with htw | htw
    · constructor
      · rw [if_pos htw]
        exact div_nonneg (hps_nonneg _) (le_of_lt htw)
      · rw [if_pos htw, div_le_one htw]
        exact hps_le _
    · have hnot : ¬ 0 < AR.totalWeight sigs := not_lt.mpr htw
      have htw0 : AR.totalWeight sigs = 0 := le_antisymm htw htw_nonneg
      constructor
      · rw [if_neg hnot]
        exact hps_nonneg _
      · rw [if_neg hnot]
        refine le_trans (hps_le _) ?_
        rw [htw0]
        norm_num

/-- Confidence bounds of the adaptive-review detector, for the final
result and for every signal it carries. -/
theorem ar_detect_bounds (p : AR.Project) :
    (0 ≤ (AR.detect p).confidence ∧ (AR.detect p).confidence ≤ 1) ∧
    ∀ s ∈ (AR.detect p).signals, 0 ≤ s.confidence ∧ s.confidence ≤ 1 := by
  have hfacts : ∀ s ∈ AR.signalList p,
      0 ≤ s.confidence ∧ s.confidence ≤ 1 ∧ 0 ≤ s.weight := by
    intro s hs
    obtain ⟨h1, h2, h3, h4⟩ := signalList_facts p s hs
    exact ⟨h3, h4, by linarith⟩
  unfold AR.detect
  cases hu : AR.detect_user_config p with
  | none =>
    dsimp only
    refine ⟨aggregate_conf_bounds _ hfacts, ?_⟩
    intro s hs
    rcases aggregate_signals (AR.signalList p) with hsig | hsig
    · rw [hsig] at hs
      exact ⟨(hfacts s hs).1, (hfacts s hs).2.1⟩
    · rw [hsig] at hs
      simp at hs
  | some u =>
    have hc := user_config_inv p u hu
    dsimp only
    rw [if_pos (by rw [hc]; norm_num)]
    refine ⟨⟨by norm_num [hc], by norm_num [hc]⟩, ?_⟩
    intro s hs
    simp at hs
    subst hs
    exact ⟨by rw [hc]; norm_num, by rw [hc]⟩

/-- A looked-up value is among the association list's values. -/
theorem alookup_mem_values {κ α : Type} [DecidableEq κ] (l : List (κ × α))
    (k : κ) (v : α) (h : alookup l k = some v) : v ∈ l.map Prod.snd := by
  induction l with
  | nil => simp [alookup] at h
  | cons kv rest ih =>
    unfold alookup at h
    split at h
    · injection h with h'
      subst h'
      rw [List.map_cons]
      exact List.mem_cons_self _ _
    · rw [List.map_cons]
      exact List.mem_cons_of_mem _ (ih h)

/-- Every prototype-signal value is nonnegative. -/
theorem pa_proto_value_nonneg (p : PA.Project) (k : String) (v : ℚ)
    (h : alookup (PA.get_prototype_signals p) k = some v) : 0 ≤ v := by
  have hmem := alookup_mem_values _ _ _ h
  simp [PA.get_prototype_signals] at hmem
  rcases hmem with hv | hv | hv | hv | hv | hv | hv | hv <;> subst hv <;>
    first
      | exact le_min (by positivity) zero_le_one
      | (split_ifs <;> norm_num)

/-- Every MVP-signal value is nonnegative. -/
theorem pa_mvp_value_nonneg (p : PA.Project) (k : String) (v : ℚ)
    (h : alookup (PA.get_mvp_signals p) k = some v) : 0 ≤ v := by
  have hmem := alookup_mem_values _ _ _ h
  simp [PA.get_mvp_signals] at hmem
  rcases hmem with hv | hv | hv | hv | hv | hv | hv | hv | hv <;> subst hv <;>
    first
      | exact le_min (by positivity) zero_le_one
      | (split_ifs <;> norm_num)

/-- Every production-signal value is nonnegative. -/
theorem pa_production_value_nonneg (p : PA.Project) (k : String) (v : ℚ)
    (h : alookup (PA.get_production_signals p) k = some v) : 0 ≤ v := by
  have hmem := alookup_mem_values _ _ _ h
  simp [PA.get_production_signals] at hmem
  rcases hmem with hv | hv | hv | hv | hv | hv | hv | hv | hv | hv <;> subst hv <;>
    first
      | exact le_min (by positivity) zero_le_one
      | (split_ifs <;> norm_num)

/-- Bounds of the shared weighted-sum score body. -/
theorem calculateScore_bounds (table sigs : List (String × ℚ))
    (hw : ∀ nw ∈ table, 0 ≤ nw.2)
    (hv : ∀ k v, alookup sigs k = some v → 0 ≤ v) :
    0 ≤ PA.calculateScore table sigs ∧ PA.calculateScore table sigs ≤ 1 := by
  unfold PA.calculateScore
  refine ⟨le_min ?_ zero_le_one, min_le_right _ _⟩
  apply List.sum_nonneg
  intro x hx
  rw [List.mem_map] at hx
  obtain ⟨nw, hnw, hxe⟩ := hx
  rw [← hxe]
  cases hl : alookup sigs nw.1 with
  | none =>
    dsimp only
    exact le_refl 0
  | some w =>
    dsimp only
    exact mul_nonneg (hv _ _ hl) (hw nw hnw)

/-- Nonnegativity of the three weight tables. -/
theorem pa_tables_nonneg :
    (∀ nw ∈ PA.PROTOTYPE_SIGNALS, (0:ℚ) ≤ nw.2) ∧
    (∀ nw ∈ PA.MVP_SIGNALS, (0:ℚ) ≤ nw.2) ∧
    (∀ nw ∈ PA.PRODUCTION_SIGNALS, (0:ℚ) ≤ nw.2) := by
  refine ⟨?_, ?_, ?_⟩ <;> intro nw hnw <;> fin_cases hnw <;> norm_num

/-- Bounds of every label score of the project-analyzer detector. -/
theorem pa_labelScore_bounds (p : PA.Project) (ph : Phase) :
    0 ≤ PA.labelScore p ph ∧ PA.labelScore p ph ≤ 1 := by
  cases ph with
  | prototype =>
    exact calculateScore_bounds _ _ pa_tables_nonneg.1
      fun k v h => pa_proto_value_nonneg p k v h
  | mvp =>
    exact calculateScore_bounds _ _ pa_tables_nonneg.2.1
      fun k v h => pa_mvp_value_nonneg p k v h
  | production =>
    exact calculateScore_bounds _ _ pa_tables_nonneg.2.2
      fun k v h => pa_production_value_nonneg p k v h

/-- C4: confidence bounds invariant. Every confidence carried by a result
of stack detection (in particular by the vanilla-PHP and Django
detectors, cited as the delicate cases), of the adaptive-review phase
detector (the final confidence and every reported signal's confidence),
and of the project-analyzer phase detector lies in the unit interval. -/
theorem c4_confidence_bounds :
    (∀ (p : Stack.SProject) (r : Stack.DetectionResult),
       Stack.detect p = some r → 0 ≤ r.confidence ∧ r.confidence ≤ 1) ∧
    (∀ (p : Stack.SProject) (r : Stack.DetectionResult),
       Stack.detect_vanilla_php_web p = some r →
         0 ≤ r.confidence ∧ r.confidence ≤ 1) ∧
    (∀ (p : Stack.SProject) (r : Stack.DetectionResult),
       Stack.detect_django p = some r →
         0 ≤ r.confidence ∧ r.confidence ≤ 1) ∧
    (∀ p : AR.Project,
       (0 ≤ (AR.detect p).confidence ∧ (AR.detect p).confidence ≤ 1) ∧
       ∀ s ∈ (AR.detect p).signals, 0 ≤ s.confidence ∧ s.confidence ≤ 1) ∧
    (∀ p : PA.Project,
       0 ≤ (PA.detect p).confidence ∧ (PA.detect p).confidence ≤ 1) := by
  refine ⟨stack_detect_bounds, detect_vanilla_php_bounds, detect_django_bounds,
    ar_detect_bounds, ?_⟩
  intro p
  have h := pa_labelScore_bounds p (winner (PA.labelScore p))
  simpa [PA.detect] using h

/-- C4 witness: the Django-evidence project is classified django with
confidence 0.8, which the invariant places in the unit interval. -/
theorem c4_confidence_bounds_witness :
    Stack.detect Stack.djangoProject = some ⟨"django", none, "python", 4/5⟩ ∧
    (0 ≤ ((⟨"django", none, "python", 4/5⟩ : Stack.DetectionResult)).confidence ∧
     ((⟨"django", none, "python", 4/5⟩ : Stack.DetectionResult)).confidence ≤ 1) := by
  have hd : Stack.detect Stack.djangoProject =
      some ⟨"django", none, "python", 4/5⟩ := by
    have hfr : Stack.firstResult Stack.djangoProject =
        some ⟨"django", none, "python", 4/5⟩ := rfl
    unfold Stack.detect
    rw [hfr]
    dsimp only
    rw [if_pos (by norm_num)]
  exact ⟨hd, c4_confidence_bounds.1 Stack.djangoProject _ hd⟩
